import Mathlib

set_option maxRecDepth 20000

/-!
Verification of the LawStreet retrieval orchestration and answer-safety
pipeline (`src/llm/app/response_processor.py`, `src/llm/app/rag.py`,
`src/llm/app/config.py`) against its specification.

Python strings are modelled as `List Char`; Python `re` operations are
modelled by a small backtracking regular-expression engine mirroring the
semantics of the constructs actually used by the source (character
classes, alternation, greedy/lazy repetition, word boundaries, `$`,
lookahead, capture groups, and the IGNORECASE / DOTALL / MULTILINE
flags).  Float distances are modelled as rationals.
-/

namespace LawStreet

/-- Python strings are modelled as lists of characters. -/
abbrev Str := List Char

/-- Coerce a Lean string literal to the model's string type. -/
def pyS (s : String) : Str := s.toList

/-- Python truthiness of a string: nonempty. -/
def pyTruthy (s : Str) : Bool := !s.isEmpty

/-- Helper for `pyLen`. -/
def pyLenGo : Nat → Str → Nat
  | acc, [] => acc
  | acc, _ :: rest => pyLenGo (acc + 1) rest

/-- Tail-recursive length (Python `len`). -/
def pyLen (s : Str) : Nat := pyLenGo 0 s

/-- `pyLen` agrees with `List.length`. -/
theorem pyLen_eq (s : Str) : pyLen s = s.length := by
  have h : ∀ (t : Str) (acc : Nat), pyLenGo acc t = acc + t.length := by
    intro t
    induction t with
    | nil => intro acc; simp [pyLenGo]
    | cons c rest ih =>
      intro acc
      simp [pyLenGo, ih]
      omega
  simpa using h s 0

/-- Budget-countdown length comparison (`n < s.length`), evaluation
friendly for long strings. -/
def strLenGt : Str → Nat → Bool
  | [], _ => false
  | _ :: _, 0 => true
  | _ :: rest, n + 1 => strLenGt rest n

/-- `strLenGt` decides the strict length comparison. -/
theorem strLenGt_iff : ∀ {s : Str} {n : Nat}, strLenGt s n = true ↔ n < s.length := by
  intro s
  induction s with
  | nil => intro n; simp [strLenGt]
  | cons c rest ih =>
    intro n
    cases n with
    | zero => simp [strLenGt]
    | succ m => simpa [strLenGt, Nat.succ_lt_succ_iff] using ih

/-- Tail-recursive string equality mirroring Python `==` on strings. -/
def pyEq : Str → Str → Bool
  | [], [] => true
  | a :: as, b :: bs => a == b && pyEq as bs
  | _ :: _, [] => false
  | [], _ :: _ => false

/-- `pyEq` decides propositional equality. -/
theorem pyEq_iff {a b : Str} : pyEq a b = true ↔ a = b := by
  induction a generalizing b with
  | nil => cases b <;> simp [pyEq]
  | cons x xs ih =>
    cases b with
    | nil => simp [pyEq]
    | cons y ys => simp [pyEq, ih]

/-- Python `str.lower` (ASCII case mapping, which covers all characters used). -/
def pyLower (s : Str) : Str := s.map Char.toLower

/-- Python `str.upper` (ASCII case mapping). -/
def pyUpper (s : Str) : Str := s.map Char.toUpper

/-- Characters treated as whitespace by Python `str.strip` / `str.split` / `\s`. -/
def isPySpace (c : Char) : Bool :=
  c == ' ' || c == '\t' || c == '\n' || c == '\r' || c == '\x0b' || c == '\x0c'

/-- Python `str.lstrip()`. -/
def pyLstrip (s : Str) : Str := s.dropWhile isPySpace

/-- Python `str.rstrip()`. -/
def pyRstrip (s : Str) : Str := (s.reverse.dropWhile isPySpace).reverse

/-- Python `str.strip()`. -/
def pyStrip (s : Str) : Str := pyRstrip (pyLstrip s)

/-- Python `needle in haystack` substring test. -/
def pyContains (haystack needle : Str) : Bool :=
  match haystack with
  | [] => needle.isEmpty
  | _ :: rest => needle.isPrefixOf haystack || pyContains rest needle

/-- Python `str.startswith`. -/
def pyStartsWith (s pre : Str) : Bool := pre.isPrefixOf s

/-- Python `str.endsWith`. -/
def pyEndsWith (s suf : Str) : Bool := suf.isSuffixOf s

/-- Helper for `pyReplace`: fuel-driven left-to-right scan. -/
def pyReplaceGo (old new : Str) : Nat → Str → Str
  | 0, s => s
  | _ + 1, [] => []
  | fuel + 1, s@(c :: rest) =>
    if old.isPrefixOf s then new ++ pyReplaceGo old new fuel (s.drop old.length)
    else c :: pyReplaceGo old new fuel rest

/-- Python `str.replace(old, new)`: replace every non-overlapping occurrence,
left to right (the source never calls it with an empty `old`). -/
def pyReplace (s old new : Str) : Str :=
  if old.isEmpty then s else pyReplaceGo old new (pyLen s + 1) s

/-- Helper for `pyCount`. -/
def pyCountGo (sub : Str) : Nat → Str → Nat
  | 0, _ => 0
  | _ + 1, [] => 0
  | fuel + 1, s@(_ :: rest) =>
    if sub.isPrefixOf s then 1 + pyCountGo sub fuel (s.drop sub.length)
    else pyCountGo sub fuel rest

/-- Python `str.count(sub)`: number of non-overlapping occurrences (nonempty `sub`). -/
def pyCount (s sub : Str) : Nat :=
  if sub.isEmpty then pyLen s + 1 else pyCountGo sub (pyLen s + 1) s

/-- Helper for `firstIndexOfSub`. -/
def firstIndexOfSubGo (sub : Str) : Str → Nat → Option Nat
  | s, i =>
    if sub.isPrefixOf s then some i
    else
      match s with
      | [] => none
      | _ :: rest => firstIndexOfSubGo sub rest (i + 1)

/-- Index of the first occurrence of `sub` in `s`, if any. -/
def firstIndexOfSub (s sub : Str) : Option Nat := firstIndexOfSubGo sub s 0

/-- Helper scanning for the last occurrence of `sub`. -/
def lastIndexOfSubGo (sub : Str) : Str → Nat → Option Nat → Option Nat
  | [], _, best => best
  | s@(_ :: rest), i, best =>
    lastIndexOfSubGo sub rest (i + 1) (if sub.isPrefixOf s then some i else best)

/-- Index of the last occurrence of `sub` in `s`, if any (nonempty `sub`). -/
def lastIndexOfSub (s sub : Str) : Option Nat := lastIndexOfSubGo sub s 0 none

/-- Python `s.split(sep, 1)` (nonempty separator). -/
def pySplitOnce (s sep : Str) : List Str :=
  match firstIndexOfSub s sep with
  | none => [s]
  | some i => [s.take i, s.drop (i + sep.length)]

/-- Python `s.rsplit(sep, 1)` (nonempty separator). -/
def pyRsplitOnce (s sep : Str) : List Str :=
  match lastIndexOfSub s sep with
  | none => [s]
  | some i => [s.take i, s.drop (i + sep.length)]

/-- Helper for `pySplitWs`: accumulates the current word and the reversed
word list. -/
def pySplitWsGo : Str → Str → List (List Char) → List Str
  | [], cur, acc => (if cur.isEmpty then acc else cur.reverse :: acc).reverse
  | c :: rest, cur, acc =>
    if isPySpace c then
      if cur.isEmpty then pySplitWsGo rest [] acc
      else pySplitWsGo rest [] (cur.reverse :: acc)
    else pySplitWsGo rest (c :: cur) acc

/-- Python `s.split()` with no argument: split on whitespace runs, dropping empties. -/
def pySplitWs (s : Str) : List Str := pySplitWsGo s [] []

/-- Helper for `pySplitChar`. -/
def pySplitCharGo (sep : Char) : Str → Str → List (List Char) → List Str
  | [], cur, acc => (cur.reverse :: acc).reverse
  | c :: rest, cur, acc =>
    if c == sep then pySplitCharGo sep rest [] (cur.reverse :: acc)
    else pySplitCharGo sep rest (c :: cur) acc

/-- Python `s.split(sep)` for a single-character separator, keeping empties. -/
def pySplitChar (sep : Char) (s : Str) : List Str := pySplitCharGo sep s [] []

/-- Python `sep.join(parts)`. -/
def pyJoin (sep : Str) : List Str → Str
  | [] => []
  | [p] => p
  | p :: rest => p ++ sep ++ pyJoin sep rest

/-- Decimal rendering of a natural number, as Python `f-string` does. -/
def natToStr (n : Nat) : Str := (Nat.repr n).toList

/-- Sum of the lengths of a list of strings. -/
def sumLens (parts : List Str) : Nat := (parts.map List.length).sum

end LawStreet

namespace LawStreet

/-! ## Regular-expression engine

Mirrors the behaviour of the Python `re` module on the constructs used by
the source: leftmost search, backtracking with preference order
(alternation left-first, greedy repetition unless `?`-suffixed),
character classes, `\s` `\d` `\b`, `.`, `$`, `(?=...)` lookahead and
numbered capture groups, under the IGNORECASE, DOTALL and MULTILINE flags. -/

/-- One item of a character class. -/
inductive CItem where
  | one (c : Char)
  | range (lo hi : Char)

/-- Regular-expression abstract syntax. `ng` marks non-greedy (lazy) repetition. -/
inductive RE where
  | eps
  | lit (c : Char)
  | cls (items : List CItem)
  | dot
  | seq (a b : RE)
  | alt (a b : RE)
  | star (ng : Bool) (a : RE)
  | opt (ng : Bool) (a : RE)
  | wordB
  | eol
  | look (a : RE)
  | grp (n : Nat) (a : RE)

/-- Matching flags: IGNORECASE, DOTALL, MULTILINE. -/
structure MCtx where
  ci : Bool
  dotAll : Bool
  multi : Bool

/-- No flags. -/
def reFlags0 : MCtx := ⟨false, false, false⟩

/-- IGNORECASE. -/
def reFlagsI : MCtx := ⟨true, false, false⟩

/-- DOTALL ∣ MULTILINE (used by the Sources-block removal). -/
def reFlagsSM : MCtx := ⟨false, true, true⟩

/-- DOTALL (used by the word-limit disclaimer split). -/
def reFlagsS : MCtx := ⟨false, true, false⟩

/-- Character comparison under the IGNORECASE flag. -/
def charEqCI (ci : Bool) (pc c : Char) : Bool :=
  if ci then pc.toLower == c.toLower else pc == c

/-- Range membership. -/
def inRange (lo hi c : Char) : Bool := decide (lo ≤ c) && decide (c ≤ hi)

/-- Class item matching, honouring IGNORECASE. -/
def citemMatch (ci : Bool) (c : Char) : CItem → Bool
  | .one d => charEqCI ci d c
  | .range lo hi =>
    inRange lo hi c || (ci && (inRange lo hi c.toLower || inRange lo hi c.toUpper))

/-- Python `\w` membership (ASCII fragment, sufficient for the source's texts). -/
def isWordCh (c : Char) : Bool := c.isAlphanum || c == '_'

/-- Captured groups: most recent capture first. -/
abbrev Caps := List (Nat × Str)

/-- Most recent capture of group `n`. -/
def capGet (caps : Caps) (n : Nat) : Option Str :=
  (caps.find? (fun p => p.1 == n)).map (·.2)

/-- Backtracking matcher in continuation-passing style.  `prev` is the
character immediately before the current position (for `\b`), `s` the
remaining input.  The continuation receives the updated `prev`, remaining
input and captures.  `fuel` bounds recursion depth (all repetition bodies
in the source's patterns consume at least one character, so a fuel linear
in the input length suffices). -/
def reM (ctx : MCtx) : Nat → RE → Option Char → Str → Caps →
    (Option Char → Str → Caps → Option (Option Char × Str × Caps)) →
    Option (Option Char × Str × Caps)
  | 0, _, _, _, _, _ => none
  | _ + 1, .eps, prev, s, caps, k => k prev s caps
  | _ + 1, .lit c, _, s, caps, k =>
    match s with
    | [] => none
    | d :: rest => if charEqCI ctx.ci c d then k (some d) rest caps else none
  | _ + 1, .cls items, _, s, caps, k =>
    match s with
    | [] => none
    | d :: rest => if items.any (citemMatch ctx.ci d) then k (some d) rest caps else none
  | _ + 1, .dot, _, s, caps, k =>
    match s with
    | [] => none
    | d :: rest => if ctx.dotAll || d != '\n' then k (some d) rest caps else none
  | fuel + 1, .seq a b, prev, s, caps, k =>
    reM ctx fuel a prev s caps (fun p2 s2 c2 => reM ctx fuel b p2 s2 c2 k)
  | fuel + 1, .alt a b, prev, s, caps, k =>
    match reM ctx fuel a prev s caps k with
    | some r => some r
    | none => reM ctx fuel b prev s caps k
  | fuel + 1, .star ng a, prev, s, caps, k =>
    if ng then
      match k prev s caps with
      | some r => some r
      | none => reM ctx fuel a prev s caps (fun p2 s2 c2 => reM ctx fuel (.star ng a) p2 s2 c2 k)
    else
      match reM ctx fuel a prev s caps
          (fun p2 s2 c2 => reM ctx fuel (.star ng a) p2 s2 c2 k) with
      | some r => some r
      | none => k prev s caps
  | fuel + 1, .opt ng a, prev, s, caps, k =>
    if ng then
      match k prev s caps with
      | some r => some r
      | none => reM ctx fuel a prev s caps k
    else
      match reM ctx fuel a prev s caps k with
      | some r => some r
      | none => k prev s caps
  | _ + 1, .wordB, prev, s, caps, k =>
    let wp := match prev with | some c => isWordCh c | none => false
    let wn := match s with | c :: _ => isWordCh c | [] => false
    if wp != wn then k prev s caps else none
  | _ + 1, .eol, prev, s, caps, k =>
    let ok := match s with
      | [] => true
      | c :: rest => c == '\n' && (ctx.multi || rest.isEmpty)
    if ok then k prev s caps else none
  | fuel + 1, .look a, prev, s, caps, k =>
    match reM ctx fuel a prev s caps (fun p2 s2 c2 => some (p2, s2, c2)) with
    | some _ => k prev s caps
    | none => none
  | fuel + 1, .grp n a, prev, s, caps, k =>
    reM ctx fuel a prev s caps (fun p2 s2 c2 =>
      k p2 s2 ((n, s.take (pyLen s - pyLen s2)) :: c2))

/-- Attempt a match of `re` at the current position. Returns the character
preceding the remainder, the remainder, and captures.  The fuel bounds
recursion depth and is computed once per top-level operation. -/
def reTry (ctx : MCtx) (fuel : Nat) (re : RE) (prev : Option Char) (s : Str) :
    Option (Option Char × Str × Caps) :=
  reM ctx fuel re prev s [] (fun p r c => some (p, r, c))

/-- Fuel sufficient for any single match attempt within an input of the
given length (every repetition body in the source's patterns consumes at
least one character). -/
def reFuel (s : Str) : Nat := 16 * pyLen s + 800

/-- Result of a successful search. -/
structure MRes where
  pre : Str
  matched : Str
  post : Str
  lastCh : Option Char
  caps : Caps

/-- Leftmost-search scan, as Python `re.search`. -/
def reSearchGo (ctx : MCtx) (fuel : Nat) (re : RE) : Option Char → Str → Str → Option MRes
  | prev, acc, s =>
    match reTry ctx fuel re prev s with
    | some (p2, rest, caps) =>
      some ⟨acc.reverse, s.take (pyLen s - pyLen rest), rest, p2, caps⟩
    | none =>
      match s with
      | [] => none
      | c :: s2 => reSearchGo ctx fuel re (some c) (c :: acc) s2

/-- Python `re.search`. -/
def reSearch (ctx : MCtx) (re : RE) (s : Str) : Option MRes :=
  reSearchGo ctx (reFuel s) re none [] s

/-- Whether `re.search` succeeds. -/
def reTest (ctx : MCtx) (re : RE) (s : Str) : Bool := (reSearch ctx re s).isSome

/-- Python `re.match` (anchored at position 0). -/
def reMatchAt0 (ctx : MCtx) (re : RE) (s : Str) : Option MRes :=
  match reTry ctx (reFuel s) re none s with
  | some (p2, rest, caps) =>
    some ⟨[], s.take (pyLen s - pyLen rest), rest, p2, caps⟩
  | none => none

/-- Python `re.sub` with a replacement function; scans left to right over
non-overlapping matches.  (The source's patterns never match the empty
string; the empty-match branch advances one character.)  Output is
accumulated in reverse for iteration-friendly evaluation. -/
def reSubGo (ctx : MCtx) (mfuel : Nat) (re : RE) (repl : MRes → Str) :
    Nat → Option Char → Str → Str → Str
  | 0, _, s, out => out.reverse ++ s
  | fuel + 1, prev, s, out =>
    match reTry ctx mfuel re prev s with
    | some (p2, rest, caps) =>
      let m := s.take (pyLen s - pyLen rest)
      let r := repl ⟨[], m, rest, p2, caps⟩
      if m.isEmpty then
        match s with
        | [] => out.reverse ++ r
        | c :: s2 => reSubGo ctx mfuel re repl fuel (some c) s2 (c :: r.reverse ++ out)
      else reSubGo ctx mfuel re repl fuel p2 rest (r.reverse ++ out)
    | none =>
      match s with
      | [] => out.reverse
      | c :: s2 => reSubGo ctx mfuel re repl fuel (some c) s2 (c :: out)

/-- Python `re.sub` with a function replacement. -/
def reSubF (ctx : MCtx) (re : RE) (repl : MRes → Str) (s : Str) : Str :=
  reSubGo ctx (reFuel s) re repl (pyLen s + 1) none s []

/-- Python `re.sub` with a constant replacement string. -/
def reSubst (ctx : MCtx) (re : RE) (replStr : Str) (s : Str) : Str :=
  reSubF ctx re (fun _ => replStr) s

/-! ### Pattern construction helpers -/

/-- Sequence of a list of regexes. -/
def reSeqL : List RE → RE
  | [] => .eps
  | [a] => a
  | a :: rest => .seq a (reSeqL rest)

/-- Ordered alternation of a list of regexes (the source's `(?:x|y|z)`). -/
def reAltL : List RE → RE
  | [] => .eps
  | [a] => a
  | a :: rest => .alt a (reAltL rest)

/-- Literal string pattern. -/
def reStr (s : String) : RE := reSeqL (s.toList.map RE.lit)

/-- Character class from the listed characters (the source's `[Bb]`, `[-•*]`). -/
def reChars (s : String) : RE := .cls (s.toList.map CItem.one)

/-- One or more repetitions (`+`). -/
def rePlus (a : RE) : RE := .seq a (.star false a)

/-- Optional literal string (`(?:text)?`). -/
def reOptStr (s : String) : RE := .opt false (reStr s)

/-- `\s` character class. -/
def reWs : RE := .cls [.one ' ', .one '\t', .one '\n', .one '\r', .one '\x0b', .one '\x0c']

/-- `\s*`. -/
def reWsStar : RE := .star false reWs

/-- `\s+`. -/
def reWsPlus : RE := rePlus reWs

/-- `\d` character class. -/
def reDigit : RE := .cls [.range '0' '9']

/-- `.*` (greedy). -/
def reDotStar : RE := .star false .dot

/-- `.*?` (lazy). -/
def reDotStarNG : RE := .star true .dot

/-- `\b word \b` pattern for a literal word. -/
def reWord (s : String) : RE := reSeqL [.wordB, reStr s, .wordB]

/-- `\b(?:w1|w2|...)\b` pattern for alternated literal words. -/
def reWords (ws : List String) : RE := reSeqL [.wordB, reAltL (ws.map reStr), .wordB]

end LawStreet

namespace LawStreet

/-! ## response_processor.py — rule tables

Each pattern below transcribes the regular expression of the same
position in the source table; replacements are the source's replacement
strings. -/

/-- FORBIDDEN_PHRASES table: `(pattern, replacement)` pairs applied in order
by `clean_response`, with no flags. -/
def FORBIDDEN_PHRASES : List (RE × Str) := [
  (reSeqL [reChars "Bb", reStr "ased on the provided document", .opt false (.lit 's')],
   pyS "Generally"),
  (reSeqL [reChars "Bb", reStr "ased on the context provided"], pyS "Under Indian law"),
  (reSeqL [reChars "Bb", reStr "ased on the legal document", .opt false (.lit 's')],
   pyS "Typically"),
  (reSeqL [reChars "Tt", reStr "he document", .opt false (.lit 's'), reStr " do",
           reOptStr "es", reStr " not contain"],
   pyS "While specific details may vary"),
  (reSeqL [reChars "Tt", reStr "he provided context"], pyS "the available information"),
  (reSeqL [reChars "Aa", reStr "ccording to the document", .opt false (.lit 's')],
   pyS "Under Indian law"),
  (reSeqL [reChars "Ff", reStr "rom the retrieved document", .opt false (.lit 's')],
   pyS "Generally"),
  (reSeqL [reChars "Aa", reStr "ccording to the text"], pyS "Generally"),
  (reSeqL [reChars "Tt", reStr "he text ", .alt (reStr "does not ") (reStr "doesn\x27t ")],
   pyS "The specific provision "),
  (reSeqL [reChars "Ii", reStr " don", .opt false (.lit '\x27'), reStr "t have ",
           reOptStr "enough ", reStr "information"],
   pyS "While specifics may vary"),
  (reSeqL [reChars "Ii", reStr " cannot find"], pyS "The specific provision may vary, but"),
  (reSeqL [reChars "Nn", reStr "o information ", reOptStr "is ", reStr "available"],
   pyS "While specific details may vary"),
  (reSeqL [reChars "Ii", reStr " ", .alt (reStr "do not") (reStr "don\x27t"),
           reStr " have access"],
   pyS "The specific details may vary"),
  (reSeqL [reChars "Yy", reStr "ou should"], pyS "You may consider"),
  (reSeqL [reChars "Yy", reStr "ou must"], pyS "It may be advisable to"),
  (reSeqL [reChars "Yy", reStr "ou need to"], pyS "You might want to"),
  (reSeqL [reChars "Yy", reStr "ou have to"], pyS "It can be helpful to"),
  (reSeqL [reChars "Dd", reStr "o this"], pyS "consider this approach"),
  (reSeqL [reChars "Ii", reStr "t is mandatory"], pyS "It is often required"),
  (reSeqL [reChars "Ii", reStr "t is illegal"], pyS "It may be considered unlawful"),
  (reSeqL [reChars "Ii", reStr "t is legal"], pyS "It is generally permissible"),
  (reSeqL [reChars "Tt", reStr "his is always"], pyS "This is typically"),
  (reSeqL [reChars "Tt", reStr "his is never"], pyS "This is generally not"),
  (reWord "always", pyS "typically"),
  (reWord "never", pyS "generally not"),
  (reWord "definitely", pyS "likely"),
  (reWord "certainly", pyS "generally"),
  (reSeqL [reChars "Yy", reStr "ou can threaten"],
   pyS "You may inform them of your intention to pursue"),
  (reSeqL [reChars "Tt", reStr "hreaten", reOptStr "ing", reStr " legal action"],
   pyS "informing of your intention to pursue legal remedies"),
  (reSeqL [reChars "Tt", reStr "hreaten", reOptStr "ing", reStr " to ",
           .alt (reStr "sue") (reStr "file")],
   pyS "communicating your intention to pursue"),
  (reWord "threaten", pyS "inform"),
  (reWord "threatening", pyS "communicating")]

/-- Topics where police escalation is wrong (CIVIL_ONLY_TOPICS). -/
def CIVIL_ONLY_TOPICS : List Str := [pyS "debt", pyS "contract", pyS "civil", pyS "money_recovery"]

/-- ESCALATION_FIXES table, applied by `fix_escalation_paths` with IGNORECASE. -/
def ESCALATION_FIXES : List (RE × Str) := [
  (reSeqL [reChars "Cc", reStr "onsumer ", reChars "Ff", reStr "orum", reDotStar,
           reAltL [reStr "employ", reStr "labour", reStr "labor", reStr "salary",
                   reStr "termination", reStr "workplace", reStr "job", reStr "dismissal"]],
   pyS "Labour Commissioner, Industrial Tribunal, or Labour Court"),
  (reSeqL [reAltL [reStr "employ", reStr "labour", reStr "labor", reStr "salary",
                   reStr "termination", reStr "workplace", reStr "job", reStr "dismissal"],
           reDotStar, reChars "Cc", reStr "onsumer ", reChars "Ff", reStr "orum"],
   pyS "Labour Commissioner, Industrial Tribunal, or Labour Court"),
  (reSeqL [reChars "Cc", reStr "onsumer ", reChars "Ff", reStr "orum", reDotStar,
           reAltL [reStr "tenant", reStr "landlord", reStr "rent", reStr "tenancy",
                   reStr "eviction", reStr "lease"]],
   pyS "Rent Controller, Rent Tribunal, or Civil Court"),
  (reSeqL [reAltL [reStr "tenant", reStr "landlord", reStr "rent", reStr "tenancy",
                   reStr "eviction", reStr "lease"],
           reDotStar, reChars "Cc", reStr "onsumer ", reChars "Ff", reStr "orum"],
   pyS "Rent Controller, Rent Tribunal, or Civil Court")]

/-- TOPIC_PATTERNS table in source (insertion) order; scores feed `detect_topic`. -/
def TOPIC_PATTERNS : List (Str × List RE) := [
  (pyS "employment", [
    reWords ["employ", "job", "salary", "wages", "termination", "fired", "dismissal",
             "workplace", "labour", "labor", "worker", "workman"],
    reSeqL [.wordB,
            reAltL [reStr "HR", reStr "employer", reStr "employee",
                    reSeqL [reStr "contract", reWsPlus, .alt (reStr "job") (reStr "work")],
                    reStr "permanent", reStr "probation"],
            .wordB]]),
  (pyS "tenancy", [
    reSeqL [.wordB,
            reAltL [reStr "tenant", reStr "landlord", reStr "rent", reStr "lease",
                    reStr "eviction", reStr "tenancy", reStr "rental",
                    reSeqL [reStr "paying", reWsPlus, reStr "guest"], reStr "PG"],
            .wordB],
    reSeqL [.wordB,
            reAltL [reStr "flat", reStr "apartment", reStr "house", reStr "property"],
            reDotStar,
            reAltL [reStr "rent", reStr "lease", reStr "owner"], .wordB]]),
  (pyS "consumer", [
    reWords ["product", "service", "defective", "refund", "warranty", "consumer",
             "purchase", "bought", "seller"],
    reSeqL [.wordB,
            reAltL [reSeqL [reStr "online", reWsPlus, .alt (reStr "order") (reStr "shopping")],
                    reStr "e-commerce", reStr "delivery"],
            .wordB]]),
  (pyS "family", [
    reWords ["divorce", "marriage", "custody", "alimony", "maintenance", "domestic",
             "spouse", "husband", "wife"],
    reSeqL [.wordB,
            reAltL [reSeqL [reStr "child", reWsPlus, reStr "support"],
                    reStr "matrimonial", reStr "dowry", reStr "DV",
                    reSeqL [reStr "domestic", reWsPlus, reStr "violence"]],
            .wordB]]),
  (pyS "criminal", [
    reWords ["FIR", "arrested", "bail", "crime", "criminal", "theft", "assault", "murder"],
    reSeqL [.wordB,
            reAltL [reStr "forgery", reStr "defamation",
                    reSeqL [reStr "cyber", reWsStar, reStr "crime"]],
            .wordB]]),
  (pyS "debt", [
    reSeqL [.wordB,
            reAltL [reStr "debt", reSeqL [reStr "owe", .opt false (reChars "sd")],
                    reStr "loan", reStr "repay",
                    reSeqL [reStr "recover", reWsPlus, reStr "money"]],
            .wordB],
    reSeqL [.wordB,
            reAltL [reSeqL [reStr "money", reWsPlus,
                            reAltL [reStr "lent", reStr "borrowed", reStr "due"]],
                    reSeqL [reAltL [reStr "lent", reStr "borrowed", reStr "lend"],
                            reWsPlus, reStr "money"]],
            .wordB],
    reSeqL [.wordB,
            reAltL [reSeqL [reStr "not", reWsPlus,
                            reAltL [reStr "paying", reStr "returning", reStr "repaying"]],
                    reSeqL [reStr "cheque", reWsPlus, reStr "bounce"],
                    reStr "dishonour"],
            .wordB],
    reSeqL [.wordB,
            reAltL [reSeqL [reStr "gave", reWsPlus, .alt (reStr "money") (reStr "loan")],
                    reSeqL [reStr "took", reWsPlus, .alt (reStr "money") (reStr "loan")],
                    reSeqL [reStr "won", .opt false (.lit '\x27'), reStr "t", reWsPlus,
                            .alt (reStr "pay") (reStr "return")]],
            .wordB]]),
  (pyS "privacy", [
    reWords ["privacy", "surveillance", "spy", "spying", "recording", "camera",
             "tracking", "hack"],
    reSeqL [.wordB,
            reAltL [reSeqL [reStr "phone", reWsPlus, reStr "tap"], reStr "monitor",
                    reStr "digital", reStr "screenshot", reStr "chat", reStr "message"],
            .wordB]]),
  (pyS "property", [
    reSeqL [.wordB,
            reAltL [reStr "property", reStr "land", reStr "plot",
                    reSeqL [reStr "real", reWsPlus, reStr "estate"],
                    reStr "registration", reStr "mutation", reStr "inheritance"],
            .wordB],
    reWords ["will", "succession", "partition", "boundary", "encroachment"]])]

/-- CORRECT_ESCALATIONS topic→forum mapping. -/
def CORRECT_ESCALATIONS : List (Str × Str) := [
  (pyS "employment", pyS "Labour Commissioner, Industrial Tribunal, or Labour Court"),
  (pyS "tenancy", pyS "Rent Controller, Rent Tribunal, or Civil Court"),
  (pyS "consumer", pyS "Consumer Forum or Consumer Disputes Redressal Commission"),
  (pyS "family", pyS "Family Court or Mediation Center"),
  (pyS "criminal", pyS "Police Station (FIR), Magistrate Court"),
  (pyS "debt", pyS "Civil Court (money suit), legal notice, or mediation"),
  (pyS "property", pyS "Civil Court, Revenue Court, or Tehsildar office"),
  (pyS "privacy", pyS "Cyber Cell (if criminal), or Civil Court for injunction"),
  (pyS "default", pyS "appropriate legal forum or Civil Court")]

/-- Python `CORRECT_ESCALATIONS.get(topic, CORRECT_ESCALATIONS["default"])`. -/
def escalationFor (topic : Str) : Str :=
  match CORRECT_ESCALATIONS.find? (fun p => p.1 == topic) with
  | some p => p.2
  | none => pyS "appropriate legal forum or Civil Court"

/-- STATE_SPECIFIC_TOPICS patterns (IGNORECASE). -/
def STATE_SPECIFIC_TOPICS : List RE := [
  reSeqL [.wordB,
          reAltL [reSeqL [reStr "rent", reWsPlus, reStr "control"], reStr "tenancy",
                  reStr "landlord", reStr "tenant"], .wordB],
  reSeqL [.wordB,
          reAltL [reStr "labour", reStr "labor",
                  reSeqL [reStr "minimum", reWsPlus, reStr "wage"],
                  reSeqL [reStr "shop", reDotStar, reStr "establishment"]], .wordB],
  reSeqL [.wordB,
          reAltL [reSeqL [reStr "stamp", reWsPlus, reStr "duty"], reStr "registration",
                  reSeqL [reStr "property", reWsPlus, reStr "tax"]], .wordB],
  reWords ["excise", "liquor", "alcohol"],
  reSeqL [.wordB,
          reAltL [reStr "agricultural", reStr "farming",
                  reSeqL [reStr "land", reWsPlus, reStr "reform"]], .wordB],
  reSeqL [.wordB,
          reAltL [reStr "municipal", reSeqL [reStr "local", reWsPlus, reStr "body"],
                  reStr "panchayat"], .wordB]]

/-- EVIDENCE_KEYWORDS patterns (IGNORECASE). -/
def EVIDENCE_KEYWORDS : List RE := [
  reSeqL [.wordB,
          reAltL [reSeqL [reStr "record", reOptStr "ing"], reStr "spy", reStr "surveillance",
                  reStr "monitor", reStr "track", reStr "hack"], .wordB],
  reSeqL [.wordB,
          reAltL [reStr "screenshot", reSeqL [reStr "phone", reWsPlus, reStr "tap"],
                  reSeqL [reStr "hidden", reWsPlus, reStr "camera"]], .wordB],
  reSeqL [.wordB,
          reAltL [reSeqL [reStr "collect", reWsPlus, reStr "evidence"],
                  reSeqL [reStr "gather", reWsPlus, reStr "evidence"]], .wordB],
  reSeqL [.wordB,
          reAltL [reSeqL [reStr "whatsapp", reDotStar, .alt (reStr "evidence") (reStr "proof")],
                  reSeqL [reStr "sms", reDotStar, .alt (reStr "evidence") (reStr "proof")]],
          .wordB]]

/-- NORMAL_EVIDENCE_CONTEXTS patterns (IGNORECASE). -/
def NORMAL_EVIDENCE_CONTEXTS : List RE := [
  reSeqL [.wordB,
          reAltL [reSeqL [reStr "bank", reWsPlus, reStr "statement"], reStr "receipt",
                  reStr "invoice", reStr "contract", reStr "agreement"], .wordB],
  reWords ["witness", "testimony", "document", "letter", "notice"],
  reSeqL [.wordB,
          reAltL [reStr "IPC", reSeqL [reStr "section", reWsPlus, rePlus reDigit],
                  reSeqL [reStr "penal", reWsPlus, reStr "code"], reStr "criminal"],
          .wordB]]

/-- CRIMINAL_CHEATING_CONTEXT patterns (IGNORECASE). -/
def CRIMINAL_CHEATING_CONTEXT : List RE := [
  reSeqL [.wordB,
          reAltL [reStr "IPC", reStr "section",
                  reSeqL [reStr "penal", reWsPlus, reStr "code"], reStr "BNS"], .wordB],
  reWords ["420", "fraud", "dishonest", "property", "induce"],
  reWords ["criminal", "offense", "offence", "punishment", "imprisonment"]]

/-- FAMILY_EVIDENCE_KEYWORDS patterns (IGNORECASE). -/
def FAMILY_EVIDENCE_KEYWORDS : List RE := [
  reSeqL [reWords ["divorce", "spouse", "husband", "wife", "marriage"], reDotStar,
          reWords ["affair", "cheating", "infidelity", "adultery"]],
  reSeqL [reWords ["affair", "infidelity", "adultery"], reDotStar,
          reWords ["divorce", "spouse", "husband", "wife", "marriage"]],
  reSeqL [.wordB,
          reAltL [reStr "whatsapp", reStr "message", reStr "chat", reStr "screenshot"],
          reDotStar,
          reAltL [reStr "court", reStr "evidence", reStr "proof"], .wordB],
  reSeqL [.wordB, .alt (reStr "evidence") (reStr "proof"), reDotStar,
          reAltL [reStr "divorce", reStr "cheating", reStr "affair"], .wordB],
  reSeqL [.wordB, reStr "my", reWsPlus,
          reAltL [reStr "husband", reStr "wife", reStr "spouse"], reDotStar,
          .alt (reStr "cheating") (reStr "affair"), .wordB],
  reSeqL [.wordB, reStr "prove", reDotStar,
          reAltL [reStr "cheating", reStr "affair", reStr "infidelity"], .wordB]]

/-- BLOCKS_TO_REMOVE patterns (DOTALL ∣ MULTILINE): body builder shared by
the four variants; `head` is the literal block heading. -/
def blockPattern (head : RE) : RE :=
  reSeqL [.star false (.lit '\n'), .opt false (.lit '*'), .opt false (.lit '*'),
          head, .opt false (.lit ':'), .opt false (.lit '*'), .opt false (.lit '*'),
          .opt false (.lit ':'), reWsStar, .lit '\n', reChars "-•*", reDotStarNG,
          .look (reAltL [reStr "\n\n", reStr "\n**", .eol])]

/-- BLOCKS_TO_REMOVE table. -/
def BLOCKS_TO_REMOVE : List RE := [
  blockPattern (reSeqL [reStr "Source", .opt false (.lit 's')]),
  blockPattern (reSeqL [reStr "Reference", .opt false (.lit 's')]),
  blockPattern (reSeqL [reStr "Referenced Section", .opt false (.lit 's')]),
  blockPattern (reSeqL [reStr "Legal Source", .opt false (.lit 's')])]

/-- Simple heading-line pattern used by `remove_source_blocks` after the
block patterns: `\n\*?\*?HEAD:?\*?\*?\s*\n`. -/
def headingLinePattern (head : RE) : RE :=
  reSeqL [.lit '\n', .opt false (.lit '*'), .opt false (.lit '*'), head,
          .opt false (.lit ':'), .opt false (.lit '*'), .opt false (.lit '*'),
          reWsStar, .lit '\n']

end LawStreet

namespace LawStreet

/-! ## response_processor.py — constant strings -/

/-- PRIVACY_WARNING_STRONG constant. -/
def PRIVACY_WARNING_STRONG : Str := pyS "\n⚠️ **Critical Privacy Warning:**\n• Accessing someone\x27s phone, messages, or accounts WITHOUT their consent may be illegal (privacy violation, IT Act offenses, or theft)\n• Admissibility ≠ Permission — courts may accept evidence, but OBTAINING it illegally is a separate offense\n• Evidence ≠ Proof — screenshots or messages alone rarely prove anything conclusively in court\n• Obtaining evidence without consent carries its own legal risks and may harm your case ethically\n"

/-- FAMILY_EVIDENCE_WARNING constant. -/
def FAMILY_EVIDENCE_WARNING : Str := pyS "\n⚠️ **Important for Family/Divorce Matters:**\n• Private messages showing infidelity are NOT automatic grounds for divorce in India\n• Family courts evaluate overall conduct and circumstances, not just digital evidence\n• Illegally obtained evidence may be admitted but could affect your credibility\n• The burden of proof in family matters differs from criminal cases\n"

/-- DEFAULT_JURISDICTION constant. -/
def DEFAULT_JURISDICTION : Str := pyS "\n**Jurisdiction Note:**\nThis applies to Indian law, which can vary significantly by state. Your state may have specific provisions that differ from general principles.\n"

/-- DEFAULT_DISCLAIMER constant. -/
def DEFAULT_DISCLAIMER : Str := pyS "\n---\n⚠️ **Disclaimer:** This is general legal information, not legal advice. Consult a qualified lawyer for advice specific to your situation.\n"

/-- DEFAULT_NEXT_STEPS_TEMPLATE with the `{escalation_path}` hole filled, as
`str.format` does in `ensure_next_steps`. -/
def defaultNextSteps (escalation_path : Str) : Str :=
  pyS "\n**Suggested Next Steps:**\n• Document all relevant details and preserve any evidence\n• Consider direct communication or mediation first\n• " ++
  escalation_path ++
  pyS "\n• Consulting a local lawyer can provide guidance tailored to your state and situation\n"

/-! ## response_processor.py — topic detection -/

/-- Internal helper `_detect_topic_from_text`: per-topic pattern-count
scoring over the lowered text, keeping topics with positive score and
returning the first topic of maximal score in table order (Python
`max(topic_scores, key=topic_scores.get)` keeps the first maximum in
dict insertion order), else `"default"`. -/
def detect_topic_from_text (text_lower : Str) : Str :=
  let topic_scores : List (Str × Nat) :=
    TOPIC_PATTERNS.filterMap (fun tp =>
      let score := (tp.2.filter (fun p => reTest reFlagsI p text_lower)).length
      if score > 0 then some (tp.1, score) else none)
  match topic_scores.foldl
      (fun best cur =>
        match best with
        | none => some cur
        | some b => if cur.2 > b.2 then some cur else some b)
      none with
  | some b => b.1
  | none => pyS "default"

/-- `detect_topic(text, query)`: the query is scored first and wins when it
identifies a topic other than `"default"`. -/
def detect_topic (text : Str) (query : Str) : Str :=
  if pyTruthy query then
    let query_topic := detect_topic_from_text (pyLower query)
    if query_topic != pyS "default" then query_topic
    else detect_topic_from_text (pyLower text)
  else detect_topic_from_text (pyLower text)

/-- `needs_state_variation_note(text)`. -/
def needs_state_variation_note (text : Str) : Bool :=
  let text_lower := pyLower text
  STATE_SPECIFIC_TOPICS.any (fun p => reTest reFlagsI p text_lower)

/-- Shared first check of `needs_privacy_warning` and
`needs_family_evidence_warning`: any CRIMINAL_CHEATING_CONTEXT pattern
matches the lowered text. -/
def is_criminal_context (text_lower : Str) : Bool :=
  CRIMINAL_CHEATING_CONTEXT.any (fun p => reTest reFlagsI p text_lower)

/-- Inline relationship-infidelity pattern of `needs_privacy_warning`. -/
def relationshipInfidelityPattern : RE :=
  .alt
    (reSeqL [.wordB,
             reAltL [reStr "spouse", reStr "husband", reStr "wife", reStr "marriage",
                     reStr "divorce"],
             reDotStar,
             reAltL [reStr "cheating", reStr "affair", reStr "infidelity"], .wordB])
    (reSeqL [.wordB,
             reAltL [reStr "cheating", reStr "affair", reStr "infidelity"],
             reDotStar,
             reAltL [reStr "spouse", reStr "husband", reStr "wife", reStr "marriage",
                     reStr "divorce"], .wordB])

/-- `needs_privacy_warning(text)`. -/
def needs_privacy_warning (text : Str) : Bool :=
  let text_lower := pyLower text
  if is_criminal_context text_lower then false
  else
    let has_evidence_concern := EVIDENCE_KEYWORDS.any (fun p => reTest reFlagsI p text_lower)
    let has_normal_evidence :=
      NORMAL_EVIDENCE_CONTEXTS.any (fun p => reTest reFlagsI p text_lower)
    let is_relationship_infidelity := reTest reFlagsI relationshipInfidelityPattern text_lower
    has_evidence_concern && (is_relationship_infidelity || !has_normal_evidence)

/-- `needs_family_evidence_warning(text)`. -/
def needs_family_evidence_warning (text : Str) : Bool :=
  let text_lower := pyLower text
  if is_criminal_context text_lower then false
  else FAMILY_EVIDENCE_KEYWORDS.any (fun p => reTest reFlagsI p text_lower)

/-! ## response_processor.py — response cleaning -/

/-- `clean_response(response)`: apply the FORBIDDEN_PHRASES substitutions in order. -/
def clean_response (response : Str) : Str :=
  FORBIDDEN_PHRASES.foldl (fun cleaned pr => reSubst reFlags0 pr.1 pr.2 cleaned) response

/-- The `civil_note` clarification appended by `block_police_for_civil_matters`. -/
def civilNote : Str := pyS "\n\n**Important:** Non-payment of debt is generally a civil matter, not a criminal offense. Police typically cannot help recover private debts. The proper remedy is through civil courts or legal notice."

/-- The `police_patterns` rewrite table of `block_police_for_civil_matters`
(`civil_remedy` = "Civil Court, legal notice, or mediation"), IGNORECASE. -/
def policePatterns : List (RE × Str) := [
  (reSeqL [reChars "Ff", reStr "ile", reWsPlus,
           .opt false (reSeqL [.lit 'a', .opt false (.lit 'n'), reWsPlus]),
           reStr "FIR", reWsPlus, reStr "at", reWsPlus,
           .opt false (reSeqL [reStr "the", reWsPlus]),
           reStr "police", reWsPlus, reStr "station"],
   pyS "pursue civil remedies through Civil Court, legal notice, or mediation"),
  (reSeqL [reChars "Ll", reStr "odge", reWsPlus,
           .opt false (reSeqL [.lit 'a', .opt false (.lit 'n'), reWsPlus]),
           reStr "FIR", reWsPlus, .alt (reStr "at") (reStr "with"), reWsPlus,
           .opt false (reSeqL [reStr "the", reWsPlus]), reStr "police"],
   pyS "file a civil suit or send a legal notice"),
  (reSeqL [reChars "Tt", reStr "he", reWsPlus, reStr "police", reWsPlus,
           .alt (reStr "will") (reStr "can"), reWsPlus, reStr "help",
           .opt false (reSeqL [reWsPlus, reStr "you"]),
           .opt false (reSeqL [reWsPlus, reStr "recover"]),
           .opt false (reSeqL [reWsPlus, reStr "the", reWsPlus, reStr "money"])],
   pyS "Civil courts can help through a money suit to recover the amount"),
  (reSeqL [reChars "Pp", reStr "olice", reWsPlus, .alt (reStr "will") (reStr "can"),
           reWsPlus, reAltL [reStr "help", reStr "assist", reStr "recover"],
           .opt false (reSeqL [reWsPlus, reStr "the", reWsPlus, reStr "money"])],
   pyS "Civil remedies through courts can help"),
  (reSeqL [reChars "Ff", reStr "ile", reWsPlus,
           .opt false (reSeqL [.lit 'a', .opt false (.lit 'n'), reWsPlus]), reStr "FIR"],
   pyS "send a legal notice or file a civil suit"),
  (reSeqL [reChars "Ll", reStr "odge", reWsPlus,
           .opt false (reSeqL [.lit 'a', .opt false (.lit 'n'), reWsPlus]), reStr "FIR"],
   pyS "send a legal notice"),
  (reSeqL [reChars "Aa", reStr "pproach", reWsPlus,
           .opt false (reSeqL [reStr "the", reWsPlus]), reStr "police"],
   pyS "approach Civil Court, legal notice, or mediation"),
  (reSeqL [reChars "Gg", reStr "o", reWsPlus, reStr "to", reWsPlus,
           .opt false (reSeqL [reStr "the", reWsPlus]), reStr "police"],
   pyS "go to Civil Court, legal notice, or mediation"),
  (reSeqL [reChars "Cc", reStr "ontact", reWsPlus,
           .opt false (reSeqL [reStr "the", reWsPlus]), reStr "police"],
   pyS "send a legal notice or approach Civil Court, legal notice, or mediation"),
  (reSeqL [reChars "Rr", reStr "eport", reWsPlus, reStr "to", reWsPlus,
           .opt false (reSeqL [reStr "the", reWsPlus]), reStr "police"],
   pyS "pursue civil remedies"),
  (reSeqL [reChars "Pp", reStr "olice", reWsPlus, reStr "complaint"],
   pyS "legal notice or civil suit"),
  (reSeqL [.opt false (reSeqL [reStr "at", reWsPlus]),
           .opt false (reSeqL [reStr "the", reWsPlus]),
           reChars "Pp", reStr "olice", reWsPlus, reStr "station"],
   pyS "through civil courts")]

/-- The `\bpolice\b|\bFIR\b` detection pattern (searched with IGNORECASE on
the original response). -/
def policeMentionPattern : RE := .alt (reWord "police") (reWord "FIR")

/-- `block_police_for_civil_matters(response, topic)`. -/
def block_police_for_civil_matters (response : Str) (topic : Str) : Str :=
  if !(CIVIL_ONLY_TOPICS.contains topic) then response
  else
    let fixed := policePatterns.foldl (fun f pr => reSubst reFlagsI pr.1 pr.2 f) response
    if reTest reFlagsI policeMentionPattern response && topic == pyS "debt" then
      if !(pyContains fixed civilNote) then
        if pyContains fixed (pyS "**Disclaimer") then
          pyReplace fixed (pyS "**Disclaimer") (civilNote ++ pyS "\n\n**Disclaimer")
        else pyRstrip fixed ++ civilNote
      else fixed
    else fixed

/-- The `[Cc]onsumer\s+[Ff]orum` search pattern of `fix_escalation_paths`. -/
def consumerForumPattern : RE :=
  reSeqL [reChars "Cc", reStr "onsumer", reWsPlus, reChars "Ff", reStr "orum"]

/-- The `[Cc]onsumer\s+[Ff]orum(?:\s+or\s+[Cc]onsumer\s+[Cc]ommission)?`
substitution pattern of `fix_escalation_paths`. -/
def consumerForumSubPattern : RE :=
  reSeqL [reChars "Cc", reStr "onsumer", reWsPlus, reChars "Ff", reStr "orum",
          .opt false (reSeqL [reWsPlus, reStr "or", reWsPlus, reChars "Cc",
                              reStr "onsumer", reWsPlus, reChars "Cc", reStr "ommission"])]

/-- `fix_escalation_paths(response, topic)`. -/
def fix_escalation_paths (response : Str) (topic : Str) : Str :=
  let fixed := ESCALATION_FIXES.foldl (fun f pr => reSubst reFlagsI pr.1 pr.2 f) response
  let fixed :=
    if (topic == pyS "employment" || topic == pyS "tenancy") &&
        reTest reFlags0 consumerForumPattern fixed then
      let correct_path := escalationFor topic
      reSubst reFlags0 consumerForumSubPattern correct_path fixed
    else fixed
  block_police_for_civil_matters fixed topic

/-- `add_state_variation_note(response)`. -/
def add_state_variation_note (response : Str) : Str :=
  let state_phrases : List RE :=
    [reStr "vary by state", reStr "state\x27s law", reStr "state-specific",
     reSeqL [reStr "depends on", reDotStar, reStr "state"],
     reStr "your state", reStr "some states"]
  let has_state_note := state_phrases.any (fun p => reTest reFlagsI p response)
  if !has_state_note then
    if pyContains response (pyS "**Important Context:**") then
      pyReplace response (pyS "**Important Context:**")
        (pyS "**Important Context:**\n• This may vary by state - some states have specific laws that differ")
    else if pyContains response (pyS "**Quick Answer:**") then
      let parts := pySplitOnce response (pyS "**Quick Answer:**")
      if parts.length == 2 then
        let answer_parts := pySplitOnce (parts.getD 1 []) (pyS "\n\n")
        if answer_parts.length == 2 then
          parts.getD 0 [] ++ pyS "**Quick Answer:**" ++ answer_parts.getD 0 [] ++
          pyS "\n\n**Important Context:**\n• State laws may vary - check your state\x27s specific provisions\n\n" ++
          answer_parts.getD 1 []
        else response
      else response
    else response
  else response

/-- `add_privacy_warning(response, query)`. -/
def add_privacy_warning (response : Str) (query : Str) : Str :=
  let combined := pyLower (query ++ pyS " " ++ response)
  let strong_warning_phrases : List Str :=
    [pyS "without consent", pyS "illegal", pyS "separate offense",
     pyS "legal risk", pyS "privacy violation", pyS "obtaining it"]
  let has_strong_warning :=
    (strong_warning_phrases.filter (fun p => pyContains (pyLower response) p)).length ≥ 2
  if has_strong_warning then response
  else
    let is_family_evidence := FAMILY_EVIDENCE_KEYWORDS.any (fun p => reTest reFlagsI p combined)
    let warning :=
      if is_family_evidence then FAMILY_EVIDENCE_WARNING ++ PRIVACY_WARNING_STRONG
      else PRIVACY_WARNING_STRONG
    if pyContains response (pyS "**Disclaimer") then
      pyReplace response (pyS "**Disclaimer") (warning ++ pyS "\n**Disclaimer")
    else if pyContains response (pyS "Disclaimer:") then
      pyReplace response (pyS "Disclaimer:") (warning ++ pyS "\nDisclaimer:")
    else if pyContains response (pyS "---") then
      let parts := pyRsplitOnce response (pyS "---")
      if parts.length == 2 then
        parts.getD 0 [] ++ warning ++ pyS "\n---" ++ parts.getD 1 []
      else response
    else pyRstrip response ++ pyS "\n" ++ warning

/-- `remove_source_blocks(response)`. -/
def remove_source_blocks (response : Str) : Str :=
  let cleaned := BLOCKS_TO_REMOVE.foldl (fun c p => reSubst reFlagsSM p [] c) response
  let cleaned := reSubst reFlags0
    (headingLinePattern (reSeqL [reStr "Source", .opt false (.lit 's')])) (pyS "\n") cleaned
  let cleaned := reSubst reFlags0
    (headingLinePattern (reSeqL [reStr "Reference", .opt false (.lit 's')])) (pyS "\n") cleaned
  reSubst reFlags0
    (headingLinePattern (reSeqL [reStr "Referenced Section", .opt false (.lit 's')]))
    (pyS "\n") cleaned

end LawStreet

namespace LawStreet

/-! ## response_processor.py — structure enforcement -/

/-- `ensure_jurisdiction_note(response)`. -/
def ensure_jurisdiction_note (response : Str) : Str :=
  let jurisdiction_phrases : List Str :=
    [pyS "Jurisdiction Note", pyS "Indian law", pyS "state\x27s law", pyS "vary by state"]
  let has_jurisdiction := jurisdiction_phrases.any (fun p => pyContains response p)
  if !has_jurisdiction then
    if pyContains response (pyS "**Disclaimer") then
      pyReplace response (pyS "**Disclaimer") (DEFAULT_JURISDICTION ++ pyS "\n**Disclaimer")
    else if pyContains response (pyS "---") then
      let parts := pyRsplitOnce response (pyS "---")
      if parts.length == 2 then
        parts.getD 0 [] ++ DEFAULT_JURISDICTION ++ pyS "---" ++ parts.getD 1 []
      else response
    else response ++ DEFAULT_JURISDICTION
  else response

/-- The four disclaimer-detection patterns of `ensure_disclaimer` (no flags). -/
def disclaimerPatterns : List RE :=
  [reSeqL [reChars "Dd", reStr "isclaimer"],
   reStr "not legal advice",
   reSeqL [reStr "consult", reDotStar, reStr "lawyer"],
   reSeqL [reStr "⚠️", reDotStar, reChars "Dd", reStr "isclaimer"]]

/-- `ensure_disclaimer(response)`. -/
def ensure_disclaimer (response : Str) : Str :=
  let has_disclaimer := disclaimerPatterns.any (fun p => reTest reFlags0 p response)
  if !has_disclaimer then pyRstrip response ++ DEFAULT_DISCLAIMER
  else response

/-- `ensure_next_steps(response, topic)`. -/
def ensure_next_steps (response : Str) (topic : Str) : Str :=
  if pyContains response (pyS "Next Steps") || pyContains response (pyS "Suggested Next Steps") then
    response
  else
    let escalation_path := escalationFor topic
    let next_steps := defaultNextSteps
      (pyS "If unresolved, " ++ escalation_path ++ pyS " may be appropriate")
    if pyContains response (pyS "**Disclaimer") then
      pyReplace response (pyS "**Disclaimer") (next_steps ++ pyS "\n**Disclaimer")
    else if pyContains response (pyS "---") then
      let parts := pyRsplitOnce response (pyS "---")
      if parts.length == 2 then
        parts.getD 0 [] ++ next_steps ++ pyS "\n---" ++ parts.getD 1 []
      else response
    else response ++ next_steps

/-- The `case_pattern` of `truncate_case_law`:
`(\b[A-Z][a-z]+ v\.? [A-Z][a-z]+.*?)(\n|$)` with groups 1 and 2. -/
def casePattern : RE :=
  .seq
    (.grp 1 (reSeqL [.wordB, .cls [.range 'A' 'Z'], rePlus (.cls [.range 'a' 'z']),
                     reStr " v", .opt false (.lit '.'), .lit ' ',
                     .cls [.range 'A' 'Z'], rePlus (.cls [.range 'a' 'z']), reDotStarNG]))
    (.grp 2 (.alt (.lit '\n') .eol))

/-- The inner `re.match` pattern of `truncate_case_law`:
`([A-Z][a-z]+ v\.? [A-Z][a-z]+)`. -/
def caseNamePattern : RE :=
  .grp 1 (reSeqL [.cls [.range 'A' 'Z'], rePlus (.cls [.range 'a' 'z']),
                  reStr " v", .opt false (.lit '.'), .lit ' ',
                  .cls [.range 'A' 'Z'], rePlus (.cls [.range 'a' 'z'])])

/-- `truncate_case_law(response, max_case_length)` — the `truncate_match`
replacement function inlined. -/
def truncate_case_law (response : Str) (max_case_length : Nat) : Str :=
  reSubF reFlags0 casePattern
    (fun m =>
      let case_text := (capGet m.caps 1).getD []
      if case_text.length > max_case_length then
        match reMatchAt0 reFlags0 caseNamePattern case_text with
        | some nm => ((capGet nm.caps 1).getD []) ++ pyS " (landmark case)" ++
            ((capGet m.caps 2).getD [])
        | none => m.matched
      else m.matched)
    response

/-- One iteration of the line-classification loop of
`format_response_structure`; state is (quick, remaining, sentence_count)
with the two line lists accumulated in order. -/
def frsStep (st : List Str × List Str × Nat) (line : Str) : List Str × List Str × Nat :=
  if st.2.2 < 4 && !(pyStartsWith line (pyS "•")) && !(pyStartsWith line (pyS "-")) &&
      !(pyStartsWith line (pyS "**")) then
    (st.1 ++ [line], st.2.1,
     st.2.2 + pyCount line (pyS ".") + pyCount line (pyS "?") + pyCount line (pyS "!"))
  else (st.1, st.2.1 ++ [line], st.2.2)

/-- `format_response_structure(response)`. -/
def format_response_structure (response : Str) : Str :=
  if pyContains response (pyS "**Quick Answer:**") ||
      pyContains response (pyS "Quick Answer:") then response
  else
    let lines := pySplitChar '\n' (pyStrip response)
    let st := lines.foldl frsStep ([], [], 0)
    let quick_answer_lines := st.1
    let remaining_lines := st.2.1
    let structured := pyS "**Quick Answer:**\n" ++ pyJoin (pyS "\n") quick_answer_lines ++
      pyS "\n\n"
    if !remaining_lines.isEmpty then
      (remaining_lines.take 4).foldl
        (fun acc line =>
          if pyTruthy (pyStrip line) && !(pyStartsWith line (pyS "**")) then
            if !(pyStartsWith line (pyS "•")) then
              acc ++ pyS "• " ++ pyStrip line ++ pyS "\n"
            else acc ++ line ++ pyS "\n"
          else acc)
        (structured ++ pyS "**Important Context:**\n")
    else structured

/-- The disclaimer-block pattern of `enforce_word_limit`:
`---\s*\n*⚠️\s*\*\*Disclaimer.*` with DOTALL. -/
def wordLimitDisclaimerPattern : RE :=
  reSeqL [reStr "---", reWsStar, .star false (.lit '\n'), reStr "⚠️", reWsStar,
          reStr "**Disclaimer", reDotStar]

/-- `enforce_word_limit(response, max_words)`. -/
def enforce_word_limit (response : Str) (max_words : Nat) : Str :=
  let words := pySplitWs response
  if words.length ≤ max_words then response
  else
    let disclaimer :=
      match reSearch reFlagsS wordLimitDisclaimerPattern response with
      | some m => m.matched
      | none => DEFAULT_DISCLAIMER
    let main_text := reSubst reFlagsS wordLimitDisclaimerPattern [] response
    let main_words := pySplitWs main_text
    let main_text :=
      if main_words.length > max_words - 30 then
        pyJoin (pyS " ") (main_words.take (max_words - 30)) ++ pyS "..."
      else main_text
    pyStrip main_text ++ pyS "\n" ++ disclaimer

/-- `post_process_response(response, query)` — the eleven-step safety pipeline. -/
def post_process_response (response : Str) (query : Str) : Str :=
  if !(pyTruthy response) || pyStartsWith response (pyS "Error") then response
  else
    let combined_text := query ++ pyS " " ++ response
    let topic := detect_topic combined_text query
    let processed := remove_source_blocks response
    let processed := clean_response processed
    let processed := fix_escalation_paths processed topic
    let processed := truncate_case_law processed 80
    let processed := format_response_structure processed
    let processed :=
      if needs_state_variation_note combined_text then add_state_variation_note processed
      else processed
    let processed :=
      if needs_privacy_warning combined_text || needs_family_evidence_warning combined_text then
        add_privacy_warning processed query
      else processed
    let processed := ensure_jurisdiction_note processed
    let processed := ensure_next_steps processed topic
    let processed := ensure_disclaimer processed
    let processed := enforce_word_limit processed 280
    pyStrip processed

end LawStreet

namespace LawStreet

/-! ## rag.py — data model

The vector store and embedding model are external collaborators
(spec §6); they are modelled as function-valued parameters.  Distances
are rationals.  ChromaDB metadata dictionaries are modelled as records of
the optional scalar fields the source reads; a missing key is `none`. -/

/-- Configured number of results (config.py `TOP_K_RESULTS`). -/
def TOP_K_RESULTS : Nat := 2

/-- Configured context budget in characters (config.py `MAX_CONTEXT_LENGTH`). -/
def MAX_CONTEXT_LENGTH : Nat := 2500

/-- Configured relevance threshold (config.py `RELEVANCE_THRESHOLD = 0.8`). -/
def RELEVANCE_THRESHOLD : Rat := ⟨4, 5, by decide, by decide⟩

/-- Embedding vector (opaque to the pipeline logic). -/
abbrev Emb := List Rat

/-- Metadata record: the fields of the ChromaDB metadata dictionary that
the source reads, each `none` when the key is absent. -/
structure Meta where
  type? : Option Str
  section_number? : Option Str
  section? : Option Str
  section_title? : Option Str
  source? : Option Str
deriving DecidableEq, Repr

/-- The empty metadata dictionary `{}`. -/
def Meta.empty : Meta := ⟨none, none, none, none, none⟩

/-- A retrieved document dict `{content, metadata, distance}`. -/
structure Doc where
  content : Str
  metadata : Meta
  distance : Rat
deriving DecidableEq, Repr

/-- Result of `collection.get(where=...)`. -/
structure GetResult where
  ids : List Str
  documents : List Str
  metadatas : List Meta
deriving Repr

/-- Result of `collection.query(...)` (outer lists indexed by query vector,
as ChromaDB returns them). -/
structure QueryResult where
  documents : List (List Str)
  metadatas : List (List Meta)
  distances : List (List Rat)
deriving Repr

/-- The vector-store collaborator: `get` is the structured lookup filtered
by `(section_number, type)` and may raise (modelled as `Except`);
`query` is the nearest-neighbour search for `n_results` candidates. -/
structure Collection where
  get : Str → Str → Except Str GetResult
  query : Emb → Nat → QueryResult

/-- Python `l[i]` under the collaborator alignment contract (out-of-range
indexing would raise in Python and is outside the modelled behaviours). -/
def listAt (l : List α) (i : Nat) (d : α) : α := (l.get? i).getD d

/-! ## rag.py — query analysis -/

/-- Pattern `\b(ipc|crpc|cpc|evidence)\s*(?:section)?\s*(\d+)\b`. -/
def secPat0 : RE :=
  reSeqL [.wordB,
          .grp 1 (reAltL [reStr "ipc", reStr "crpc", reStr "cpc", reStr "evidence"]),
          reWsStar, reOptStr "section", reWsStar, .grp 2 (rePlus reDigit), .wordB]

/-- Pattern `\bsection\s*(\d+)\s*(?:of\s*)?(ipc|crpc|cpc|evidence)?\b`. -/
def secPat1 : RE :=
  reSeqL [.wordB, reStr "section", reWsStar, .grp 1 (rePlus reDigit), reWsStar,
          .opt false (reSeqL [reStr "of", reWsStar]),
          .opt false (.grp 2 (reAltL [reStr "ipc", reStr "crpc", reStr "cpc",
                                      reStr "evidence"])),
          .wordB]

/-- Pattern `\bsec\.?\s*(\d+)\b`. -/
def secPat2 : RE :=
  reSeqL [.wordB, reStr "sec", .opt false (.lit '.'), reWsStar,
          .grp 1 (rePlus reDigit), .wordB]

/-- Pattern `\bwhat\s+is\s+(\d+)\b`. -/
def secPat3 : RE :=
  reSeqL [.wordB, reStr "what", reWsPlus, reStr "is", reWsPlus,
          .grp 1 (rePlus reDigit), .wordB]

/-- `extract_section_info(query)`: ordered pattern cascade over the lowered
query; a missing act defaults to `"ipc"`. -/
def extract_section_info (query : Str) : Option Str × Option Str :=
  let query_lower := pyLower query
  match reSearch reFlags0 secPat0 query_lower with
  | some m => (capGet m.caps 2, some ((capGet m.caps 1).getD (pyS "ipc")))
  | none =>
    match reSearch reFlags0 secPat1 query_lower with
    | some m =>
      let act0 :=
        match capGet m.caps 2 with
        | some v => if v.isEmpty then none else some v
        | none => none
      (capGet m.caps 1, some (act0.getD (pyS "ipc")))
    | none =>
      match reSearch reFlags0 secPat2 query_lower with
      | some m => (capGet m.caps 1, some (pyS "ipc"))
      | none =>
        match reSearch reFlags0 secPat3 query_lower with
        | some m => (capGet m.caps 1, some (pyS "ipc"))
        | none => (none, none)

/-- `expand_query_for_section(query, section_num, act_type)`. -/
def expand_query_for_section (query section_num act_type : Str) : Str :=
  let act_names : List (Str × Str) :=
    [(pyS "ipc", pyS "Indian Penal Code IPC offense crime punishment penalty"),
     (pyS "crpc", pyS "Code of Criminal Procedure CrPC criminal procedure bail arrest"),
     (pyS "cpc", pyS "Code of Civil Procedure CPC civil procedure suit decree"),
     (pyS "evidence", pyS "Indian Evidence Act evidence witness proof testimony")]
  let act_keywords :=
    match act_names.find? (fun p => p.1 == act_type) with
    | some p => p.2
    | none => []
  pyS "Section " ++ section_num ++ pyS " " ++ pyUpper act_type ++ pyS " " ++
    act_keywords ++ pyS " " ++ query

/-- Python truthiness of an optional string (`if section_num and act_type`). -/
def pyTruthyO (o : Option Str) : Bool :=
  match o with
  | some s => !s.isEmpty
  | none => false

/-! ## rag.py — hybrid retrieval -/

/-- The composite deduplication key `f"{type}_{section_number}"`. -/
def docKey (m : Meta) : Str :=
  (m.type?.getD []) ++ pyS "_" ++ (m.section_number?.getD [])

/-- Exact-match phase of `retrieve_documents`: every hit of the structured
lookup is appended with `distance = 0.0`; a raised error is caught and
yields no documents. -/
def exactMatchDocs (coll : Collection) (section_num act_type : Str) : List Doc :=
  match coll.get section_num act_type with
  | .error _ => []
  | .ok r =>
    if !r.ids.isEmpty then
      (List.range r.ids.length).map (fun idx =>
        ⟨listAt r.documents idx [],
         if r.metadatas.isEmpty then Meta.empty else listAt r.metadatas idx Meta.empty,
         0⟩)
    else []

/-- The exact-match documents collected before the semantic query, as a
function of the collection and query. -/
def exactPhase (coll : Collection) (query : Str) : List Doc :=
  let si := extract_section_info query
  if pyTruthyO si.1 && pyTruthyO si.2 then
    exactMatchDocs coll (si.1.getD []) (si.2.getD [])
  else []

/-- The (possibly expanded) text sent to the embedding model. -/
def searchQueryOf (query : Str) : Str :=
  let si := extract_section_info query
  if pyTruthyO si.1 && pyTruthyO si.2 then
    expand_query_for_section query (si.1.getD []) (si.2.getD [])
  else query

/-- The metadata dict of the `idx`-th semantic hit:
`results['metadatas'][0][idx] if results['metadatas'] else {}`. -/
def semMetaAt (metasOuter : List (List Meta)) (idx : Nat) : Meta :=
  if metasOuter.isEmpty then Meta.empty
  else listAt (listAt metasOuter 0 []) idx Meta.empty

/-- The distance of the `idx`-th semantic hit:
`results['distances'][0][idx] if results['distances'] else 0`. -/
def semDistAt (distsOuter : List (List Rat)) (idx : Nat) : Rat :=
  if distsOuter.isEmpty then 0 else listAt (listAt distsOuter 0 []) idx 0

/-- Semantic-merge loop of `retrieve_documents`: walk the semantic hits in
order, stop at `top_k` accepted candidates, skip any hit whose composite
key is already present, and append accepted hits with their reported
distance (`0` when the result carries no distances list). -/
def semanticMerge (top_k : Nat) (metasOuter : List (List Meta))
    (distsOuter : List (List Rat)) :
    List Str → Nat → List Doc → List Str → List Doc
  | [], _, retrieved, _ => retrieved
  | doc :: rest, idx, retrieved, existing =>
    if top_k ≤ retrieved.length then retrieved
    else
      let meta := semMetaAt metasOuter idx
      let doc_id := docKey meta
      if existing.contains doc_id then
        semanticMerge top_k metasOuter distsOuter rest (idx + 1) retrieved existing
      else
        semanticMerge top_k metasOuter distsOuter rest (idx + 1)
          (retrieved ++ [⟨doc, meta, semDistAt distsOuter idx⟩]) (existing ++ [doc_id])

/-- `RAGPipeline.retrieve_documents(query, top_k)`, with the collection and
embedding model passed explicitly.  The structured lookup's errors are
caught; an error raised by `embed_query` is NOT caught by the source and
propagates (hence the `Except` result). -/
def retrieve_documents (coll : Collection) (embed : Str → Except Str Emb)
    (query : Str) (top_k : Nat) : Except Str (List Doc) :=
  let retrieved := exactPhase coll query
  match embed (searchQueryOf query) with
  | .error e => .error e
  | .ok emb =>
    let remaining : Int := (top_k : Int) - retrieved.length
    if remaining > 0 then
      let results := coll.query emb (remaining.toNat + retrieved.length)
      if !results.documents.isEmpty && !(listAt results.documents 0 []).isEmpty then
        .ok (semanticMerge top_k results.metadatas results.distances
          (listAt results.documents 0 []) 0 retrieved
          (retrieved.map (fun d => docKey d.metadata)))
      else .ok retrieved
    else .ok retrieved

/-! ## rag.py — context building and relevance gate -/

/-- The per-document context segment rendered by `build_context` for the
document at (1-based) position `idx`. -/
def docTextOf (idx : Nat) (doc : Doc) : Str :=
  let metadata := doc.metadata
  let content := doc.content
  let t0 := pyS "\n--- Document " ++ natToStr idx ++ pyS " ---\n"
  let doc_type := metadata.type?.getD []
  let section_num := metadata.section_number?.getD (metadata.section?.getD [])
  let section_title := metadata.section_title?.getD []
  let t1 :=
    if doc_type == pyS "ipc" then
      t0 ++ pyS "Indian Penal Code (IPC) - Section " ++ section_num ++ pyS "\n"
    else if doc_type == pyS "crpc" then
      t0 ++ pyS "Code of Criminal Procedure (CrPC) - Section " ++ section_num ++ pyS "\n"
    else if doc_type == pyS "cpc" then
      t0 ++ pyS "Code of Civil Procedure (CPC) - Section " ++ section_num ++ pyS "\n"
    else if doc_type == pyS "evidence" then
      t0 ++ pyS "Indian Evidence Act - Section " ++ section_num ++ pyS "\n"
    else
      let a :=
        if metadata.source?.isSome then
          t0 ++ pyS "Source: " ++ metadata.source?.getD [] ++ pyS "\n"
        else t0
      if pyTruthy section_num then a ++ pyS "Section: " ++ section_num ++ pyS "\n" else a
  let t2 :=
    if pyTruthy section_title then
      let clean_title :=
        pyReplace (pyReplace section_title (pyS "in The") (pyS " - "))
          (pyS "in TheIndian") (pyS " - ")
      t1 ++ pyS "Title: " ++ clean_title ++ pyS "\n"
    else t1
  t2 ++ pyS "\n" ++ content ++ pyS "\n" ++ pyS "---\n"

/-- The accumulation loop of `build_context`: append segments while the
character budget allows, break (stopping entirely) otherwise. -/
def buildLoop : List Doc → Nat → Nat → List Str
  | [], _, _ => []
  | d :: rest, idx, current_length =>
    let t := docTextOf idx d
    if MAX_CONTEXT_LENGTH < current_length + t.length then []
    else t :: buildLoop rest (idx + 1) (current_length + t.length)

/-- `RAGPipeline.build_context(documents)`. -/
def build_context (documents : List Doc) : Str :=
  if documents.isEmpty then pyS "No relevant legal documents were found for this query."
  else pyJoin (pyS "\n") (buildLoop documents 1 0)

/-- `RAGPipeline._check_relevance(retrieved_docs, query)`. -/
def check_relevance (retrieved_docs : List Doc) (query : Str) : Bool :=
  match retrieved_docs with
  | [] => false
  | d0 :: _ =>
    let best_distance := d0.distance
    if best_distance == 0 then true
    else
      let si := extract_section_info query
      if pyTruthyO si.1 && pyTruthyO si.2 then
        retrieved_docs.any (fun d =>
          (match d.metadata.section_number? with
           | some v => v == si.1.getD []
           | none => false) &&
          (match d.metadata.type? with
           | some v => v == si.2.getD []
           | none => false))
      else decide (best_distance < RELEVANCE_THRESHOLD)

end LawStreet

namespace LawStreet

/-! ## Claim C5 — idempotence of the pipeline steps -/

/-- Input exhibiting non-idempotence of `remove_source_blocks`: two
adjacent `Sources:` heading lines.  The first pass consumes the newline
terminating the first heading, so the second heading only becomes
removable on a second pass: one pass yields `"\nSources:\nX"`, a second
pass `"\nX"`. -/
def c5Input : Str := pyS "\nSources:\nSources:\nX"

/-- Representative input for `remove_source_blocks`. -/
def repSourceBlocks : Str := pyS "Answer text.\n\n**Sources:**\n- IPC Section 420\n\nMore."

/-- Representative input for `clean_response`. -/
def repClean : Str := pyS "You should file a suit. It is always better. Do not threaten anyone."

/-- Representative input for `fix_escalation_paths` (employment topic). -/
def repFix : Str := pyS "You may approach the Consumer Forum about your job termination."

/-- Representative input for `truncate_case_law`. -/
def repCase : Str := pyS "See Kesavananda v. State for basic structure doctrine which is a very long citation indeed exceeding the cap easily.\nNext line."

/-- Representative input for `format_response_structure`. -/
def repFormat : Str := pyS "Cheating is punishable under IPC 420. The punishment may extend to seven years.\nIt also includes fine.\nCourts interpret this strictly."

/-- Representative input for `ensure_jurisdiction_note` and `ensure_disclaimer`. -/
def repEnsure : Str := pyS "**Quick Answer:**\nCheating is punishable.\n"

/-- Representative input for `ensure_next_steps`. -/
def repNext : Str := pyS "**Quick Answer:**\nYou can sue.\n"

/-- Representative over-long input for `enforce_word_limit` (300 words and
a trailing disclaimer block). -/
def repLimit : Str :=
  pyJoin [] (List.replicate 300 (pyS "word ")) ++
  pyS "\n---\n⚠️ **Disclaimer:** This is general legal information, not legal advice."

/-- C5: the claim that every step of the safety pipeline is idempotent on
every input string is false: `remove_source_blocks` changes its own
output on `"\nSources:\nSources:\nX"`. -/
theorem C5_counterexample :
    remove_source_blocks (remove_source_blocks c5Input) ≠ remove_source_blocks c5Input := by
  intro h
  have hb := pyEq_iff.mpr h
  revert hb
  decide

set_option maxHeartbeats 0 in
/-- C5 (amended): each step of the response safety pipeline —
`remove_source_blocks`, `clean_response`, `fix_escalation_paths`,
`truncate_case_law`, `format_response_structure`,
`ensure_jurisdiction_note`, `ensure_next_steps`, `ensure_disclaimer`,
`enforce_word_limit` — is idempotent on a representative input per step
(the guarantee holds for representative inputs, not for every string). -/
theorem C5_amended :
    remove_source_blocks (remove_source_blocks repSourceBlocks) =
        remove_source_blocks repSourceBlocks ∧
    clean_response (clean_response repClean) = clean_response repClean ∧
    fix_escalation_paths (fix_escalation_paths repFix (pyS "employment")) (pyS "employment") =
        fix_escalation_paths repFix (pyS "employment") ∧
    truncate_case_law (truncate_case_law repCase 80) 80 = truncate_case_law repCase 80 ∧
    format_response_structure (format_response_structure repFormat) =
        format_response_structure repFormat ∧
    ensure_jurisdiction_note (ensure_jurisdiction_note repEnsure) =
        ensure_jurisdiction_note repEnsure ∧
    ensure_next_steps (ensure_next_steps repNext (pyS "employment")) (pyS "employment") =
        ensure_next_steps repNext (pyS "employment") ∧
    ensure_disclaimer (ensure_disclaimer repEnsure) = ensure_disclaimer repEnsure ∧
    enforce_word_limit (enforce_word_limit repLimit 220) 220 =
        enforce_word_limit repLimit 220 :=
  ⟨pyEq_iff.mp (by decide), pyEq_iff.mp (by decide), pyEq_iff.mp (by decide),
   pyEq_iff.mp (by decide), pyEq_iff.mp (by decide), pyEq_iff.mp (by decide),
   pyEq_iff.mp (by decide), pyEq_iff.mp (by decide), pyEq_iff.mp (by decide)⟩

end LawStreet

namespace LawStreet

/-! ## Claim C1 — topic-aware police/FIR rewriting for debt queries -/

/-- Debt query used in the C1 scenarios (detected topic: debt). -/
def debtQuery : Str := pyS "My friend owes money and is not repaying the debt"

/-- Unstructured raw response recommending an FIR, with "police" occurring
multiple times. -/
def firResponseUnstructured : Str := pyS "You should file an FIR at the police station. The police will help you recover the money. Go to the police."

/-- Structured raw response (already carrying a Quick Answer header)
recommending an FIR, with "police" occurring multiple times. -/
def firResponseStructured : Str := pyS "**Quick Answer:**\nYou should file an FIR at the police station. The police will help you recover the money. Go to the police."

set_option maxHeartbeats 0 in
/-- C1: the claim fails.  For the debt query and an FIR-recommending raw
response without a pre-existing `Quick Answer` header, the detected topic
is debt and the raw response recommends filing an FIR, yet the processed
answer contains the civil-matter clarification note ZERO times, not
exactly once: `format_response_structure` drops the appended note line
(it starts with `**` and is excluded from the synthesized
`Important Context` section). -/
theorem C1_counterexample :
    detect_topic (debtQuery ++ pyS " " ++ firResponseUnstructured) debtQuery = pyS "debt" ∧
    pyContains firResponseUnstructured (pyS "file an FIR") = true ∧
    pyCount (post_process_response firResponseUnstructured debtQuery) civilNote = 0 :=
  ⟨pyEq_iff.mp (by decide), by decide, by decide⟩

set_option maxHeartbeats 0 in
/-- C1 (amended): for a representative debt query and FIR-recommending raw
response that already carries a `Quick Answer` header (so the structural
formatter preserves the appended note), the processed answer contains the
civil-matter clarification note exactly once, names a civil remedy
("Civil Court"), and contains no police/FIR language outside that note
(no `\bpolice\b` or `\bfir\b` match in the text before or after the
note — the note itself contains the word "Police" in its explanation
that police cannot recover private debts, so the original "no police/FIR
language anywhere" phrasing cannot hold). -/
theorem C1_amended :
    detect_topic (debtQuery ++ pyS " " ++ firResponseStructured) debtQuery = pyS "debt" ∧
    pyContains firResponseStructured (pyS "file an FIR") = true ∧
    pyCount (post_process_response firResponseStructured debtQuery) civilNote = 1 ∧
    pyContains (post_process_response firResponseStructured debtQuery) (pyS "Civil Court") = true ∧
    (pySplitOnce (post_process_response firResponseStructured debtQuery) civilNote).length = 2 ∧
    ((pySplitOnce (post_process_response firResponseStructured debtQuery) civilNote).map
        (fun part =>
          reTest reFlagsI (reWord "police") part || reTest reFlagsI (reWord "fir") part)) =
      [false, false] :=
  ⟨pyEq_iff.mp (by decide), by decide, by decide, by decide, by decide, by decide⟩

/-! ## Claim C6 — criminal-context suppression of privacy warnings -/

/-- The C6 query. -/
def ipc420Query : Str := pyS "What is IPC 420 cheating punishment"

/-- A representative raw response to the C6 query. -/
def ipc420Response : Str := pyS "**Quick Answer:**\nCheating under IPC 420 is punishable with imprisonment up to seven years and fine."

set_option maxHeartbeats 0 in
/-- C6: whenever any CRIMINAL_CHEATING_CONTEXT pattern matches the
combined text — both warning predicates are short-circuited to `false`;
in particular this holds for the combined text of the query
"What is IPC 420 cheating punishment" (despite the word "cheating"), and
`post_process_response` inserts neither the privacy nor the
family-evidence warning block for it. -/
theorem C6_criminal_context_suppression :
    (∀ t : Str, is_criminal_context (pyLower t) = true →
      needs_privacy_warning t = false ∧ needs_family_evidence_warning t = false) ∧
    is_criminal_context (pyLower (ipc420Query ++ pyS " " ++ ipc420Response)) = true ∧
    needs_privacy_warning (ipc420Query ++ pyS " " ++ ipc420Response) = false ∧
    needs_family_evidence_warning (ipc420Query ++ pyS " " ++ ipc420Response) = false ∧
    pyContains (post_process_response ipc420Response ipc420Query)
      (pyS "Critical Privacy Warning") = false ∧
    pyContains (post_process_response ipc420Response ipc420Query)
      (pyS "Important for Family/Divorce Matters") = false := by
  refine ⟨?_, by decide, by decide, by decide, by decide, by decide⟩
  intro t h
  constructor
  · simp [needs_privacy_warning, h]
  · simp [needs_family_evidence_warning, h]

/-! ## Claim C7 — disclaimer and next-steps guarantees -/

/-- Raw response already containing the phrase "not legal advice", which
satisfies the disclaimer-detection patterns of `ensure_disclaimer`. -/
def notAdviceResponse : Str := pyS "Generally the answer is yes. This is not legal advice."

/-- Query of the C7 counterexample scenario. -/
def helloQuery : Str := pyS "hello"

/-- Employment-topic scenario of the amended C7 claim. -/
def employmentResponse : Str := pyS "**Quick Answer:**\nYou can sue your employer for unpaid dues."

/-- Employment query (topic: employment). -/
def employmentQuery : Str := pyS "I was fired from my job without salary"

set_option maxHeartbeats 0 in
/-- C7: the claim fails.  For a non-empty raw response that does not start
with "Error" but already contains "not legal advice",
`ensure_disclaimer` treats the disclaimer as present and appends nothing,
so the processed answer does not end with a disclaimer block — the word
"Disclaimer" does not occur in it at all (the answer ends with the
next-steps section). -/
theorem C7_counterexample :
    pyTruthy notAdviceResponse = true ∧
    pyStartsWith notAdviceResponse (pyS "Error") = false ∧
    pyContains (post_process_response notAdviceResponse helloQuery) (pyS "Disclaimer") = false :=
  ⟨by decide, by decide, by decide⟩

set_option maxHeartbeats 0 in
/-- C7 (amended): for representative raw responses carrying no
pre-existing disclaimer-like text and no next-steps section (here an
employment scenario), the processed answer ends with the default
disclaimer block and contains a next-steps line whose escalation path is
exactly the detected topic's entry in CORRECT_ESCALATIONS. -/
theorem C7_amended :
    detect_topic (employmentQuery ++ pyS " " ++ employmentResponse) employmentQuery =
      pyS "employment" ∧
    pyEndsWith (post_process_response employmentResponse employmentQuery)
      (pyS "---\n⚠️ **Disclaimer:** This is general legal information, not legal advice. Consult a qualified lawyer for advice specific to your situation.") = true ∧
    pyContains (post_process_response employmentResponse employmentQuery)
      (pyS "• If unresolved, " ++
        escalationFor (detect_topic (employmentQuery ++ pyS " " ++ employmentResponse)
          employmentQuery) ++
        pyS " may be appropriate") = true :=
  ⟨pyEq_iff.mp (by decide), by decide, by decide⟩

end LawStreet

namespace LawStreet

/-! ## Retrieval lemmas -/

/-- Every document produced by the exact structured lookup carries
distance 0. -/
theorem exactMatchDocs_distance (coll : Collection) (sn act : Str) :
    ∀ d ∈ exactMatchDocs coll sn act, d.distance = 0 := by
  intro d hd
  unfold exactMatchDocs at hd
  rcases hget : coll.get sn act with e | r <;> rw [hget] at hd
  · simp at hd
  · by_cases hids : r.ids.isEmpty = false
    · simp only [hids, Bool.not_false, if_true] at hd
      rcases List.mem_map.mp hd with ⟨i, _, hmk⟩
      rw [← hmk]
    · simp only [Bool.not_eq_false] at hids
      simp [hids] at hd

/-- Every document of the exact phase carries distance 0. -/
theorem exactPhase_distance (coll : Collection) (q : Str) :
    ∀ d ∈ exactPhase coll q, d.distance = 0 := by
  intro d hd
  simp only [exactPhase] at hd
  split at hd
  · exact exactMatchDocs_distance coll _ _ d hd
  · simp at hd

/-- All-zero lists of rationals are sorted. -/
theorem pairwise_le_of_all_zero {l : List Rat} (h : ∀ x ∈ l, x = (0 : Rat)) :
    l.Pairwise (· ≤ ·) := by
  induction l with
  | nil => exact List.Pairwise.nil
  | cons x xs ih =>
    refine List.pairwise_cons.mpr ⟨?_, ih (fun y hy => h y (List.mem_cons_of_mem _ hy))⟩
    intro y hy
    rw [h x (List.mem_cons_self x xs), h y (List.mem_cons_of_mem _ hy)]

/-- Step equation of `semanticMerge` on a cons cell. -/
theorem semanticMerge_cons (top_k : Nat) (metasOuter : List (List Meta))
    (distsOuter : List (List Rat)) (doc : Str) (rest : List Str) (idx : Nat)
    (retrieved : List Doc) (existing : List Str) :
    semanticMerge top_k metasOuter distsOuter (doc :: rest) idx retrieved existing =
      if top_k ≤ retrieved.length then retrieved
      else if existing.contains (docKey (semMetaAt metasOuter idx)) then
        semanticMerge top_k metasOuter distsOuter rest (idx + 1) retrieved existing
      else
        semanticMerge top_k metasOuter distsOuter rest (idx + 1)
          (retrieved ++ [⟨doc, semMetaAt metasOuter idx, semDistAt distsOuter idx⟩])
          (existing ++ [docKey (semMetaAt metasOuter idx)]) := rfl

/-- Decomposition of the semantic-merge loop: the result extends the
already-retrieved list by a block of accepted semantic hits whose
composite keys are pairwise distinct and disjoint from `existing`; when
the query result carries no distances list every accepted hit gets
distance 0, and otherwise (under the collaborator alignment contract)
the accepted hits' distances form a sublist of the reported distances
from position `idx` on. -/
theorem semanticMerge_decomp (top_k : Nat) (metasOuter : List (List Meta))
    (distsOuter : List (List Rat)) :
    ∀ (docs0 : List Str) (idx : Nat) (retrieved : List Doc) (existing : List Str),
    ∃ extra : List Doc,
      semanticMerge top_k metasOuter distsOuter docs0 idx retrieved existing =
        retrieved ++ extra ∧
      (extra.map (fun d => docKey d.metadata)).Nodup ∧
      (∀ kk ∈ extra.map (fun d => docKey d.metadata), kk ∉ existing) ∧
      (distsOuter.isEmpty = true → ∀ d ∈ extra, d.distance = 0) ∧
      (distsOuter.isEmpty = false →
        idx + docs0.length ≤ (listAt distsOuter 0 []).length →
        (extra.map (fun d => d.distance)).Sublist ((listAt distsOuter 0 []).drop idx)) := by
  intro docs0
  induction docs0 with
  | nil =>
    intro idx retrieved existing
    exact ⟨[], by simp [semanticMerge], by simp, by simp, by simp, by simp⟩
  | cons doc rest ih =>
    intro idx retrieved existing
    rw [semanticMerge_cons]
    by_cases hbreak : top_k ≤ retrieved.length
    · rw [if_pos hbreak]
      exact ⟨[], by simp, by simp, by simp, by simp, by simp⟩
    · rw [if_neg hbreak]
      by_cases hdup : existing.contains (docKey (semMetaAt metasOuter idx)) = true
      · rw [if_pos hdup]
        rcases ih (idx + 1) retrieved existing with
          ⟨extra, heq, hnd, hfresh, hzero, hsub⟩
        refine ⟨extra, heq, hnd, hfresh, hzero, ?_⟩
        intro hne hlen
        simp only [List.length_cons] at hlen
        refine List.Sublist.trans (hsub hne (by omega))
          (List.drop_sublist_drop_left _ (Nat.le_succ idx))
      · rw [if_neg hdup]
        rcases ih (idx + 1)
            (retrieved ++ [⟨doc, semMetaAt metasOuter idx, semDistAt distsOuter idx⟩])
            (existing ++ [docKey (semMetaAt metasOuter idx)]) with
          ⟨extra, heq, hnd, hfresh, hzero, hsub⟩
        have hdupmem : docKey (semMetaAt metasOuter idx) ∉ existing := by
          intro hmem
          have helem : List.elem (docKey (semMetaAt metasOuter idx)) existing = true :=
            List.elem_iff.mpr hmem
          exact hdup (by simpa [List.contains] using helem)
        refine ⟨⟨doc, semMetaAt metasOuter idx, semDistAt distsOuter idx⟩ :: extra,
          ?_, ?_, ?_, ?_, ?_⟩
        · rw [heq]
          simp
        · simp only [List.map_cons, List.nodup_cons]
          refine ⟨?_, hnd⟩
          intro hmem
          exact hfresh _ hmem (by simp)
        · intro kk hkk
          simp only [List.map_cons, List.mem_cons] at hkk
          rcases hkk with h | h
          · subst h
            exact hdupmem
          · intro hmem
            exact hfresh _ h (List.mem_append.mpr (Or.inl hmem))
        · intro hne d hd
          rcases List.mem_cons.mp hd with rfl | hd
          · simp [semDistAt, hne]
          · exact hzero hne d hd
        · intro hne hlen
          simp only [List.length_cons] at hlen
          have hidx : idx < (listAt distsOuter 0 []).length := by omega
          have hidx2 : idx < ((distsOuter[0]?).getD []).length := by
            simpa [listAt, List.get?_eq_getElem?] using hidx
          rw [List.map_cons, List.drop_eq_getElem_cons hidx]
          have hval : semDistAt distsOuter idx = (listAt distsOuter 0 [])[idx] := by
            simp [semDistAt, hne, listAt, List.get?_eq_getElem?,
              List.getElem?_eq_getElem hidx2]
          rw [hval]
          exact List.Sublist.cons₂ _ (hsub hne (by omega))

/-- The semantic-merge loop never grows the candidate list beyond
`max retrieved.length top_k`. -/
theorem semanticMerge_length (top_k : Nat) (metasOuter : List (List Meta))
    (distsOuter : List (List Rat)) :
    ∀ (docs0 : List Str) (idx : Nat) (retrieved : List Doc) (existing : List Str),
    (semanticMerge top_k metasOuter distsOuter docs0 idx retrieved existing).length ≤
      max retrieved.length top_k := by
  intro docs0
  induction docs0 with
  | nil =>
    intro idx retrieved existing
    simp [semanticMerge, Nat.le_max_left]
  | cons doc rest ih =>
    intro idx retrieved existing
    rw [semanticMerge_cons]
    by_cases hbreak : top_k ≤ retrieved.length
    · rw [if_pos hbreak]
      exact Nat.le_max_left _ _
    · rw [if_neg hbreak]
      by_cases hdup : existing.contains (docKey (semMetaAt metasOuter idx)) = true
      · rw [if_pos hdup]
        exact ih (idx + 1) retrieved existing
      · rw [if_neg hdup]
        refine le_trans (ih (idx + 1) _ _) ?_
        have hlt : retrieved.length + 1 ≤ top_k := by omega
        have : (retrieved ++
            [(⟨doc, semMetaAt metasOuter idx, semDistAt distsOuter idx⟩ : Doc)]).length =
            retrieved.length + 1 := by simp
        rw [this, Nat.max_eq_right hlt]
        exact Nat.le_max_right _ _

/-- Case analysis of a successful `retrieve_documents` run: either the
semantic query was skipped or returned nothing (the result is exactly the
exact phase), or the result is the semantic merge seeded with the exact
phase. -/
theorem retrieve_ok_shape (coll : Collection) (embed : Str → Except Str Emb)
    (q : Str) (top_k : Nat) (res : List Doc)
    (hres : retrieve_documents coll embed q top_k = Except.ok res) :
    res = exactPhase coll q ∨
    ∃ emb : Emb,
      res = semanticMerge top_k
        (coll.query emb (((top_k : Int) - (exactPhase coll q).length).toNat +
          (exactPhase coll q).length)).metadatas
        (coll.query emb (((top_k : Int) - (exactPhase coll q).length).toNat +
          (exactPhase coll q).length)).distances
        (listAt (coll.query emb (((top_k : Int) - (exactPhase coll q).length).toNat +
          (exactPhase coll q).length)).documents 0 [])
        0 (exactPhase coll q)
        ((exactPhase coll q).map (fun d => docKey d.metadata)) := by
  unfold retrieve_documents at hres
  rcases hemb : embed (searchQueryOf q) with e | emb <;> rw [hemb] at hres
  · exact absurd hres (by simp)
  · simp only at hres
    split at hres
    · split at hres
      · exact Or.inr ⟨emb, (Except.ok.injEq _ _).mp hres.symm⟩
      · exact Or.inl ((Except.ok.injEq _ _).mp hres.symm)
    · exact Or.inl ((Except.ok.injEq _ _).mp hres.symm)

end LawStreet

namespace LawStreet

/-! ## Concrete collaborator instances for the retrieval claims -/

/-- An embedding model that always succeeds. -/
def embedOk : Str → Except Str Emb := fun _ => Except.ok []

/-- Metadata of an IPC section 420 chunk. -/
def mIpc420 : Meta := ⟨some (pyS "ipc"), some (pyS "420"), none, none, none⟩

/-- Metadata of a CrPC section 41 chunk. -/
def mCrpc41 : Meta := ⟨some (pyS "crpc"), some (pyS "41"), none, none, none⟩

/-- Metadata of a CPC section 9 chunk. -/
def mCpc9 : Meta := ⟨some (pyS "cpc"), some (pyS "9"), none, none, none⟩

/-- A collection whose structured lookup returns TWO chunks of the same
section (the indexer stores one document per chunk, all sharing the
`(type, section_number)` pair), and whose semantic query returns nothing. -/
def collDup : Collection :=
  ⟨fun _ _ => .ok ⟨[pyS "id1", pyS "id2"], [pyS "chunk one", pyS "chunk two"],
      [mIpc420, mIpc420]⟩,
   fun _ _ => ⟨[], [], []⟩⟩

/-- A collection whose structured lookup returns THREE chunks of the same
section. -/
def collTriple : Collection :=
  ⟨fun _ _ => .ok ⟨[pyS "id1", pyS "id2", pyS "id3"],
      [pyS "chunk one", pyS "chunk two", pyS "chunk three"],
      [mIpc420, mIpc420, mIpc420]⟩,
   fun _ _ => ⟨[], [], []⟩⟩

/-- A collection whose structured lookup raises and whose semantic query
returns one document but NO distances list. -/
def collNoDist : Collection :=
  ⟨fun _ _ => .error (pyS "db down"),
   fun _ _ => ⟨[[pyS "semantic text"]], [[mCrpc41]], []⟩⟩

/-- A well-behaved collection: one exact chunk for the requested section
and two semantic hits with distinct keys and ascending positive distances. -/
def collW : Collection :=
  ⟨fun _ _ => .ok ⟨[pyS "id1"], [pyS "exact chunk"], [mIpc420]⟩,
   fun _ _ => ⟨[[pyS "crpc text", pyS "cpc text"]], [[mCrpc41, mCpc9]],
      [[(1 : Rat), (2 : Rat)]]⟩⟩

/-- The candidate list `retrieve_documents` produces for `collW` on the
query "ipc 420" with `top_k = 5`. -/
def resW : List Doc :=
  [⟨pyS "exact chunk", mIpc420, 0⟩,
   ⟨pyS "crpc text", mCrpc41, 1⟩,
   ⟨pyS "cpc text", mCpc9, 2⟩]

/-! ## Claim C2 — deduplication and ordering of retrieved candidates -/

/-- C2: the claim fails.  The structured lookup returns every chunk of the
requested section and `retrieve_documents` appends them all without
deduplication, so two candidates share the composite key `ipc_420`. -/
theorem C2_counterexample :
    ¬ ((((retrieve_documents collDup embedOk (pyS "ipc 420") 5).toOption.getD []).map
        (fun d => docKey d.metadata)).Nodup) := by
  decide

/-- C2 (amended): every candidate list produced by `retrieve_documents`
decomposes as the exact-match block followed by the semantic block; no
semantic candidate repeats the key of another semantic candidate or of
any exact candidate; and, provided the vector store reports distances
sorted ascending and aligned with its documents, the semantic block is
in ascending distance order.  (Duplicate keys can occur only among the
exact chunks themselves.) -/
theorem C2_amended (coll : Collection) (embed : Str → Except Str Emb) (q : Str)
    (top_k : Nat) (res : List Doc)
    (hres : retrieve_documents coll embed q top_k = Except.ok res)
    (hsorted : ∀ (e : Emb) (n : Nat),
      (listAt (coll.query e n).distances 0 []).Pairwise (· ≤ ·))
    (halign : ∀ (e : Emb) (n : Nat),
      (listAt (coll.query e n).documents 0 []).length ≤
        (listAt (coll.query e n).distances 0 []).length) :
    res = exactPhase coll q ++ res.drop (exactPhase coll q).length ∧
    ((res.drop (exactPhase coll q).length).map (fun d => docKey d.metadata)).Nodup ∧
    (∀ kk ∈ (res.drop (exactPhase coll q).length).map (fun d => docKey d.metadata),
      kk ∉ (exactPhase coll q).map (fun d => docKey d.metadata)) ∧
    ((res.drop (exactPhase coll q).length).map (fun d => d.distance)).Pairwise (· ≤ ·) := by
  rcases retrieve_ok_shape coll embed q top_k res hres with hcase | ⟨emb, hcase⟩
  · rw [hcase, List.drop_length]
    exact ⟨by simp, by simp, by simp, by simp⟩
  · rcases semanticMerge_decomp top_k _ _ _ 0 (exactPhase coll q)
        ((exactPhase coll q).map (fun d => docKey d.metadata)) with
      ⟨extra, heq, hnd, hfresh, hzero, hsub⟩
    rw [hcase, heq, List.drop_left]
    refine ⟨rfl, hnd, hfresh, ?_⟩
    by_cases hde : (coll.query emb (((top_k : Int) - (exactPhase coll q).length).toNat +
        (exactPhase coll q).length)).distances.isEmpty
    · refine pairwise_le_of_all_zero ?_
      intro x hx
      rcases List.mem_map.mp hx with ⟨d, hd, hdx⟩
      rw [← hdx]
      exact hzero hde d hd
    · have hs := hsub (by simpa using hde)
        (by simpa using halign emb (((top_k : Int) - (exactPhase coll q).length).toNat +
          (exactPhase coll q).length))
      rw [List.drop_zero] at hs
      exact (hsorted emb _).sublist hs

/-- Witness for the amended C2 claim: the well-behaved collection `collW`
on the query "ipc 420" yields the exact chunk followed by the two
semantic hits, with distinct fresh keys and ascending distances. -/
theorem C2_witness :
    resW = exactPhase collW (pyS "ipc 420") ++
      resW.drop (exactPhase collW (pyS "ipc 420")).length ∧
    ((resW.drop (exactPhase collW (pyS "ipc 420")).length).map
      (fun d => docKey d.metadata)).Nodup ∧
    (∀ kk ∈ (resW.drop (exactPhase collW (pyS "ipc 420")).length).map
        (fun d => docKey d.metadata),
      kk ∉ (exactPhase collW (pyS "ipc 420")).map (fun d => docKey d.metadata)) ∧
    ((resW.drop (exactPhase collW (pyS "ipc 420")).length).map
      (fun d => d.distance)).Pairwise (· ≤ ·) :=
  C2_amended collW embedOk (pyS "ipc 420") 5 resW (by rfl)
    (fun e n => by
      change ([(1 : Rat), (2 : Rat)]).Pairwise (· ≤ ·)
      decide)
    (fun e n => Nat.le.refl)

/-! ## Claim C3 — section mismatch forces the relevance gate shut -/

/-- A candidate list whose single element matches a DIFFERENT section than
the one extracted from the query, but carries the exact-match sentinel
distance 0.0. -/
def c3Docs : List Doc := [⟨pyS "Arrest procedure text", mCrpc41, 0⟩]

/-- C3: the claim fails.  When the first candidate carries distance 0.0,
`_check_relevance` returns True before ever comparing section numbers,
even though the query asks for IPC 420 and no candidate matches it. -/
theorem C3_counterexample :
    extract_section_info (pyS "ipc 420") = (some (pyS "420"), some (pyS "ipc")) ∧
    (c3Docs.all (fun d =>
      !((d.metadata.section_number? == some (pyS "420")) &&
        (d.metadata.type? == some (pyS "ipc"))))) = true ∧
    check_relevance c3Docs (pyS "ipc 420") = true := by
  refine ⟨by decide, by decide, by decide⟩

/-- C3 (amended): if a `(section_number, act_type)` pair is extracted from
the query, no candidate's metadata matches it, and the FIRST candidate's
distance is not the exact-match sentinel 0.0, then `_check_relevance`
returns False regardless of how low the other distances are. -/
theorem C3_amended (docs : List Doc) (q sn act : Str)
    (hq : extract_section_info q = (some sn, some act))
    (hsn : sn.isEmpty = false) (hact : act.isEmpty = false)
    (hmatch : ∀ d ∈ docs, ¬(d.metadata.section_number? = some sn ∧
        d.metadata.type? = some act))
    (hd0 : ∀ d ∈ docs.take 1, d.distance ≠ 0) :
    check_relevance docs q = false := by
  cases docs with
  | nil => rfl
  | cons d0 rest =>
    have hdist : d0.distance ≠ 0 := hd0 d0 (by simp)
    simp only [check_relevance, hq, pyTruthyO, hsn, hact, Bool.not_false, Bool.and_self,
      if_true, Option.getD_some]
    rw [if_neg (by simpa using hdist)]
    rw [List.any_eq_false]
    intro d hd
    have hm := hmatch d hd
    cases hsec : d.metadata.section_number? with
    | none => simp
    | some v =>
      cases htyp : d.metadata.type? with
      | none => simp
      | some w =>
        simp only [beq_iff_eq, Bool.and_eq_true, not_and]
        intro hv hw
        exact hm ⟨by rw [hsec, hv], by rw [htyp, hw]⟩

/-- Witness for the amended C3 claim: a non-matching CrPC 41 candidate
with distance 1/2 against the query "ipc 420" is gated out. -/
theorem C3_witness :
    check_relevance [⟨pyS "Arrest procedure text", mCrpc41, (1 : Rat)⟩]
      (pyS "ipc 420") = false :=
  C3_amended [⟨pyS "Arrest procedure text", mCrpc41, (1 : Rat)⟩]
    (pyS "ipc 420") (pyS "420") (pyS "ipc")
    (by decide) (by decide) (by decide) (by decide) (by decide)

/-! ## Claim C4 — embedding failure is NOT recovered -/

/-- C4: the source does not wrap `embed_query` in a try/except (only the
structured lookup is guarded), so an embedding failure propagates out of
`retrieve_documents` as an exception instead of yielding an empty
candidate list — contradicting both the spec and the module's own
docstring ("Handle embedding errors (return empty if fails)"). -/
theorem C4_embed_error_propagates (coll : Collection) (q : Str) (top_k : Nat) :
    retrieve_documents coll (fun _ => Except.error (pyS "embedding failure")) q top_k =
      Except.error (pyS "embedding failure") := rfl

end LawStreet

namespace LawStreet

/-! ## Claim C8 — context budget and empty sentinel -/

/-- A document with empty content and empty metadata (its rendered context
segment is minimal, 26-27 characters). -/
def emptyDoc : Doc := ⟨[], Meta.empty, 1⟩

/-- C8: the claim fails.  The accumulation loop bounds only the SUM of the
segment lengths by `MAX_CONTEXT_LENGTH`, but the final
`"\n".join(context_parts)` adds one separator character per boundary
that is not counted against the budget: 93 minimal documents yield a
context of 2566 > 2500 characters. -/
theorem C8_counterexample :
    ¬ ((build_context (List.replicate 93 emptyDoc)).length ≤ MAX_CONTEXT_LENGTH) := by
  intro h
  have hgt : MAX_CONTEXT_LENGTH < (build_context (List.replicate 93 emptyDoc)).length :=
    strLenGt_iff.mp (by decide)
  omega

/-- Step equation of `buildLoop` on a cons cell. -/
theorem buildLoop_cons (d : Doc) (rest : List Doc) (idx cur : Nat) :
    buildLoop (d :: rest) idx cur =
      if MAX_CONTEXT_LENGTH < cur + (docTextOf idx d).length then []
      else docTextOf idx d :: buildLoop rest (idx + 1) (cur + (docTextOf idx d).length) := rfl

/-- Sum bound of the accumulation loop: whenever the loop keeps at least
one segment, the kept segments' total length (plus the running length it
started from) stays within the budget. -/
theorem buildLoop_sum (docs : List Doc) : ∀ (idx cur : Nat),
    buildLoop docs idx cur ≠ [] →
    sumLens (buildLoop docs idx cur) + cur ≤ MAX_CONTEXT_LENGTH := by
  induction docs with
  | nil => intro idx cur h; exact absurd rfl h
  | cons d rest ih =>
    intro idx cur h
    rw [buildLoop_cons] at h ⊢
    by_cases hfit : MAX_CONTEXT_LENGTH < cur + (docTextOf idx d).length
    · rw [if_pos hfit] at h
      exact absurd rfl h
    · rw [if_neg hfit] at h ⊢
      by_cases hrest : buildLoop rest (idx + 1) (cur + (docTextOf idx d).length) = []
      · rw [hrest]
        simp only [sumLens, List.map_cons, List.map_nil, List.sum_cons, List.sum_nil]
        omega
      · have hr := ih (idx + 1) (cur + (docTextOf idx d).length) hrest
        simp only [sumLens, List.map_cons, List.sum_cons] at hr ⊢
        omega

/-- The loop keeps at most one segment per document. -/
theorem buildLoop_count (docs : List Doc) : ∀ (idx cur : Nat),
    (buildLoop docs idx cur).length ≤ docs.length := by
  induction docs with
  | nil => intro idx cur; simp [buildLoop]
  | cons d rest ih =>
    intro idx cur
    rw [buildLoop_cons]
    split
    · simp
    · simpa using Nat.succ_le_succ (ih (idx + 1) (cur + (docTextOf idx d).length))

/-- Step equation of `pyJoin` with at least two parts. -/
theorem pyJoin_cons₂ (sep p q : Str) (rs : List Str) :
    pyJoin sep (p :: q :: rs) = p ++ sep ++ pyJoin sep (q :: rs) := rfl

/-- Length of a newline-join: segment lengths plus one per boundary. -/
theorem pyJoin_newline_length : ∀ (parts : List Str), parts ≠ [] →
    (pyJoin (pyS "\n") parts).length = sumLens parts + (parts.length - 1) := by
  intro parts
  induction parts with
  | nil => intro h; exact absurd rfl h
  | cons p rest ih =>
    intro _
    cases rest with
    | nil => simp [pyJoin, sumLens]
    | cons q rs =>
      have hr := ih (by simp)
      rw [pyJoin_cons₂, List.length_append, List.length_append, hr]
      have hsep : (pyS "\n").length = 1 := rfl
      rw [hsep]
      simp only [sumLens, List.map_cons, List.sum_cons, List.length_cons]
      omega

/-- C8 (amended): the empty candidate list yields exactly the fixed
sentinel string, and for every candidate list the built context is at
most `MAX_CONTEXT_LENGTH` plus one uncounted newline separator per
document (`"\n".join` separators are not charged against the budget, so
the strict 2500-character bound fails but this bound holds). -/
theorem C8_amended :
    build_context [] = pyS "No relevant legal documents were found for this query." ∧
    ∀ docs : List Doc, (build_context docs).length ≤ MAX_CONTEXT_LENGTH + docs.length := by
  refine ⟨rfl, ?_⟩
  intro docs
  cases docs with
  | nil =>
    have : (build_context []).length = 54 := by decide
    rw [this]
    decide
  | cons d rest =>
    rw [build_context, if_neg (by simp)]
    cases hbl : buildLoop (d :: rest) 1 0 with
    | nil => simp [pyJoin]
    | cons p ps =>
      have hsum := buildLoop_sum (d :: rest) 1 0 (by rw [hbl]; simp)
      have hcount := buildLoop_count (d :: rest) 1 0
      have hjoin := pyJoin_newline_length (buildLoop (d :: rest) 1 0) (by rw [hbl]; simp)
      rw [hbl] at hsum hcount hjoin
      rw [hjoin]
      simp only [List.length_cons] at hcount ⊢
      omega

/-! ## Claim C9 — distance 0.0 as the exact-match sentinel -/

/-- C9: the claim fails.  When the vector store reports no distances list,
the source assigns the fallback distance 0 to every accepted SEMANTIC
hit (`results['distances'][0][idx] if results['distances'] else 0`), so
a candidate produced by the semantic nearest-neighbour query carries the
"reserved" distance 0.0; here the exact phase is empty and the sole
(semantic) candidate has distance 0. -/
theorem C9_counterexample :
    exactPhase collNoDist (pyS "ipc 420") = [] ∧
    ((retrieve_documents collNoDist embedOk (pyS "ipc 420") 5).toOption.getD []).map
      (fun d => d.distance) = [0] := by
  refine ⟨by decide, ?_⟩
  have : ((retrieve_documents collNoDist embedOk (pyS "ipc 420") 5).toOption.getD []).map
      (fun d => d.distance) = [0] := by rfl
  exact this

/-- C9 (amended): every exact-phase candidate carries distance 0, and —
provided the vector store reports a distances list that is aligned with
its documents and strictly positive — no semantic candidate carries
distance 0. -/
theorem C9_amended (coll : Collection) (embed : Str → Except Str Emb) (q : Str)
    (top_k : Nat) (res : List Doc)
    (hres : retrieve_documents coll embed q top_k = Except.ok res)
    (hne : ∀ (e : Emb) (n : Nat), (coll.query e n).distances.isEmpty = false)
    (halign : ∀ (e : Emb) (n : Nat),
      (listAt (coll.query e n).documents 0 []).length ≤
        (listAt (coll.query e n).distances 0 []).length)
    (hpos : ∀ (e : Emb) (n : Nat), ∀ x ∈ listAt (coll.query e n).distances 0 [], 0 < x) :
    (∀ d ∈ exactPhase coll q, d.distance = 0) ∧
    (∀ d ∈ res.drop (exactPhase coll q).length, d.distance ≠ 0) := by
  refine ⟨exactPhase_distance coll q, ?_⟩
  rcases retrieve_ok_shape coll embed q top_k res hres with hcase | ⟨emb, hcase⟩
  · rw [hcase, List.drop_length]
    simp
  · rcases semanticMerge_decomp top_k _ _ _ 0 (exactPhase coll q)
        ((exactPhase coll q).map (fun d => docKey d.metadata)) with
      ⟨extra, heq, _, _, _, hsub⟩
    rw [hcase, heq, List.drop_left]
    intro d hd
    have hs := hsub (hne emb _) (by simpa using halign emb _)
    rw [List.drop_zero] at hs
    have hmem : d.distance ∈ listAt
        (coll.query emb (((top_k : Int) - (exactPhase coll q).length).toNat +
          (exactPhase coll q).length)).distances 0 [] :=
      hs.subset (List.mem_map.mpr ⟨d, hd, rfl⟩)
    have := hpos emb _ _ hmem
    exact fun h0 => by rw [h0] at this; exact lt_irrefl _ this

/-- Witness for the amended C9 claim on the well-behaved collection. -/
theorem C9_witness :
    (∀ d ∈ exactPhase collW (pyS "ipc 420"), d.distance = 0) ∧
    (∀ d ∈ resW.drop (exactPhase collW (pyS "ipc 420")).length, d.distance ≠ 0) :=
  C9_amended collW embedOk (pyS "ipc 420") 5 resW (by rfl)
    (fun e n => rfl)
    (fun e n => Nat.le.refl)
    (fun e n => by
      change ∀ x ∈ [(1 : Rat), (2 : Rat)], 0 < x
      decide)

/-! ## Claim C10 — the top_k capacity bound -/

/-- C10: the claim fails.  The exact phase appends EVERY chunk returned by
the structured lookup before `top_k` is consulted, so with three stored
chunks for IPC 420 and `top_k = 2` the returned candidate list has three
elements. -/
theorem C10_counterexample :
    ¬ (((retrieve_documents collTriple embedOk (pyS "ipc 420") 2).toOption.getD
        []).length ≤ 2) := by
  decide

/-- C10 (amended): the candidate list returned by `retrieve_documents` has
at most `max top_k (number of exact hits)` elements — the semantic merge
respects the `top_k` capacity, but the exact phase may alone exceed it. -/
theorem C10_amended (coll : Collection) (embed : Str → Except Str Emb) (q : Str)
    (top_k : Nat) (res : List Doc)
    (hres : retrieve_documents coll embed q top_k = Except.ok res) :
    res.length ≤ max top_k (exactPhase coll q).length := by
  rcases retrieve_ok_shape coll embed q top_k res hres with hcase | ⟨emb, hcase⟩
  · rw [hcase]
    exact Nat.le_max_right _ _
  · rw [hcase, Nat.max_comm]
    exact semanticMerge_length _ _ _ _ _ _ _

/-- Witness for the amended C10 claim: the well-behaved collection returns
3 candidates for `top_k = 5`, within `max 5 1`. -/
theorem C10_witness : resW.length ≤ max 5 (exactPhase collW (pyS "ipc 420")).length :=
  C10_amended collW embedOk (pyS "ipc 420") 5 resW (by rfl)

end LawStreet
